import Mathlib

/-!
# Nano-scale governance engine

A shallow embedding of `governance_engine.c` (policy store, enforcement loop,
decision log, policy loader), of `system_state.c` (the state snapshot), of the
two hooks of `linux_security_module.c` and of `compile-time-enforcer.c`.

Conventions of the embedding:

* `uint8_t`, `uint16_t`, `uint32_t` fields are natural numbers; the only
  arithmetic the engine performs on them is `policy_count++` below
  `MAX_POLICIES` and `(log_index + 1) % DECISION_LOG_SIZE`, neither of which
  can wrap.
* A fixed-size C array of `n` elements is a function on `Fin n`.  Reading or
  writing such an array at an index `≥ n` is undefined behaviour in C; the
  enforcement loop, which can do so, returns `none` there.
* A `char` array member of a record is represented by the string that the
  code hands to it.  The capacity of the array is not part of the record: the
  bytes that the C object holds are given by `policy_image`, where an array of
  `n` characters keeps the first `n` bytes of its string, without a terminator
  when the string has `n` bytes or more.  `strcmp` and `strcpy` read C strings
  from these bytes (`id_c_string`, `message_c_string`), so a read that starts
  in a field without a terminator runs on into the members behind it.  The
  records stand for the objects whose `char` arrays hold zero bytes behind the
  end of their string, as `memset`, an initialiser or `strcpy` into zeroed
  memory leave them.
* The record-level `log_decision` tells which entries one call appends, in
  which order and from which policy and rule.  What the two `strcpy` calls of
  the log block leave in memory is followed on the bytes of the log
  (`log_decision_mem`, `governance_enforce_mem`), for the usual layout of the
  structs.
* `get_current_time`, `quarantine_device`, `secure_erase_all` and
  `halt_device` are supplied by the host: the clock is a parameter and the
  three handlers are recorded in the order they are called.
* The `int` counters of the enforcer are natural numbers up to `INT_MAX`;
  an addition that would exceed it is undefined behaviour in C and `none`
  here.  A file is the list of strings that successive `fgets` calls read.
-/

namespace NanoGov

/-! ## Constants -/

abbrev MAX_POLICIES : Nat := 5
abbrev MAX_RULES_PER_POLICY : Nat := 10
abbrev DECISION_LOG_SIZE : Nat := 100

/-- `char policy_id[13]` of `nano_policy` and of `decision_log_entry`. -/
abbrev sizeof_policy_id : Nat := 13

/-- `char condition[64]` of a rule. -/
abbrev sizeof_condition : Nat := 64

/-- `char message[32]` of a rule. -/
abbrev sizeof_message : Nat := 32

/-- `char details[32]` of `decision_log_entry`. -/
abbrev sizeof_details : Nat := 32

/-! ## Data model -/

/-- One element of `nano_policy.rules`: condition text, action code
(0 = allow, 1 = deny, 2 = log, 3 = quarantine, 4 = self destruct), message. -/
structure policy_rule where
  condition : String
  action : Nat
  message : String
deriving DecidableEq

/-- The C struct `nano_policy`. -/
structure nano_policy where
  policy_id : String
  rule_count : Nat
  rules : Fin MAX_RULES_PER_POLICY → policy_rule
  signature : Fin 64 → Nat
  public_key : Fin 32 → Nat

/-- The C struct `decision_log_entry`. -/
structure decision_log_entry where
  timestamp : Nat
  policy_id : String
  rule_id : String
  action_taken : Nat
  details : String
deriving DecidableEq

/-- The C struct `governance_engine`. -/
structure governance_engine where
  active_policies : Fin MAX_POLICIES → nano_policy
  policy_count : Nat
  log : Fin DECISION_LOG_SIZE → decision_log_entry
  log_index : Nat
  enforcement_flags : Nat

/-- The C struct `system_state` of `system_state.c`. -/
structure system_state where
  total_memory : Nat
  crypto_algorithm : Nat
  dependency_count : Nat
  execution_time : Nat
  stack_usage : Nat
  network_connections : Nat
  uptime : Nat

/-- The host handlers `governance_enforce` can call. -/
inductive handler where
  | quarantine_device
  | secure_erase_all
  | halt_device
deriving DecidableEq

/-- What one call of `governance_enforce` leaves behind: the engine after the
call, the returned code, and the handlers called, in call order. -/
structure enforce_outcome where
  engine : governance_engine
  result : Nat
  calls : List handler

/-! ## All-zero values (the effect of `memset(engine, 0, ...)`) -/

def zero_rule : policy_rule :=
  { condition := "", action := 0, message := "" }

def zero_policy : nano_policy :=
  { policy_id := "", rule_count := 0, rules := fun _ => zero_rule,
    signature := fun _ => 0, public_key := fun _ => 0 }

def zero_entry : decision_log_entry :=
  { timestamp := 0, policy_id := "", rule_id := "", action_taken := 0, details := "" }

def zero_engine : governance_engine :=
  { active_policies := fun _ => zero_policy, policy_count := 0,
    log := fun _ => zero_entry, log_index := 0, enforcement_flags := 0 }

/-! ## `governance_init` -/

/-- The default policy as `governance_init` builds it in slot 0 of the zeroed
engine: identifier, `rule_count = 3`, and the assignments to `rules[0..2]`.
`policy_id` is the string literal handed to `strcpy`; the bytes of it that the
13-byte field keeps once `rule_count` and the first condition are assigned are
those of `policy_image`. -/
def default_policy : nano_policy :=
  let qp : nano_policy := { zero_policy with policy_id := "GOV-SEC-DEFAULT", rule_count := 3 }
  let r0 : policy_rule :=
    { condition := "crypto_algo != 'kyber512' && crypto_algo != 'dilithium2'",
      action := 1, message := "Non-quantum-safe algorithm" }
  let r1 : policy_rule :=
    { condition := "total_memory > 4096", action := 1, message := "Exceeds nano memory limit" }
  let r2 : policy_rule :=
    { condition := "dependency_count > 0", action := 1,
      message := "External dependencies forbidden" }
  { qp with rules := Function.update (Function.update (Function.update qp.rules 0 r0) 1 r1) 2 r2 }

/-- `governance_init`: the argument is the prior content of the engine memory,
which `memset` discards. -/
def governance_init (_engine : governance_engine) : governance_engine :=
  { zero_engine with
    active_policies := Function.update zero_engine.active_policies 0 default_policy
    policy_count := 1 }

/-! ## `evaluate_condition` and `verify_policy_signature` -/

/-- `evaluate_condition`: the body in the source is `return 1;`. -/
def evaluate_condition (_condition : String) (_state : system_state) : Nat := 1

/-- `verify_policy_signature`: the body in the source is `return 1;`. -/
def verify_policy_signature (_policy : nano_policy) : Nat := 1

/-! ## `governance_enforce` -/

/-- The four assignments to `*entry` in the block `// Log the decision`, as
the source names them: `slot` is the content of the entry before them, and no
statement assigns `rule_id`.  The strings are the sources of the two `strcpy`
calls; the bytes these calls write are those of `log_decision_mem`. -/
def decision_entry (timestamp : Nat) (policy : nano_policy) (rule : policy_rule)
    (slot : decision_log_entry) : decision_log_entry :=
  { slot with
    timestamp := timestamp
    policy_id := policy.policy_id
    details := rule.message
    action_taken := rule.action }

/-- The block `// Log the decision` of `governance_enforce`: the entry at the
write cursor receives the clock reading, the policy identifier, the rule's
message and the rule's action, and the cursor advances modulo
`DECISION_LOG_SIZE`.  This is the log block statement by statement; its effect
on the bytes of the log is `log_decision_mem`. -/
def log_decision (timestamp : Nat) (policy : nano_policy) (rule : policy_rule)
    (e : governance_engine) (hl : e.log_index < DECISION_LOG_SIZE) : governance_engine :=
  { e with
    log := Function.update e.log ⟨e.log_index, hl⟩
      (decision_entry timestamp policy rule (e.log ⟨e.log_index, hl⟩))
    log_index := (e.log_index + 1) % DECISION_LOG_SIZE }

/-- The inner `for (r = 0; r < policy->rule_count; r++)` loop for policy number
`p`: `n` iterations remain and `r` is the current rule index.  The result is
`none` on an out-of-bounds index, `some (e, none)` when the loop ran to its
end, and `some (e, some (code, calls))` when a `return code` was executed. -/
def enforce_rules (get_current_time : Nat → Nat → Nat) (p : Nat) (policy : nano_policy)
    (state : system_state) :
    Nat → Nat → governance_engine → Option (governance_engine × Option (Nat × List handler))
  | 0, _, e => some (e, none)
  | n + 1, r, e =>
    if hr : r < MAX_RULES_PER_POLICY then
      if evaluate_condition (policy.rules ⟨r, hr⟩).condition state ≠ 0 then
        if hl : e.log_index < DECISION_LOG_SIZE then
          let e1 := log_decision (get_current_time p r) policy (policy.rules ⟨r, hr⟩) e hl
          match (policy.rules ⟨r, hr⟩).action with
          | 0 => enforce_rules get_current_time p policy state n (r + 1) e1
          | 1 => some (e1, some (1, []))
          | 2 => enforce_rules get_current_time p policy state n (r + 1) e1
          | 3 => some (e1, some (2, [handler.quarantine_device]))
          | 4 => some (e1, some (3, [handler.secure_erase_all, handler.halt_device]))
          | _ => enforce_rules get_current_time p policy state n (r + 1) e1
        else none
      else enforce_rules get_current_time p policy state n (r + 1) e
    else none

/-- The outer `for (p = 0; p < engine->policy_count; p++)` loop: `n` iterations
remain and `p` is the current policy index.  When the loop ends the function
returns `result`, which is still 0. -/
def enforce_policies (get_current_time : Nat → Nat → Nat) (state : system_state) :
    Nat → Nat → governance_engine → Option enforce_outcome
  | 0, _, e => some { engine := e, result := 0, calls := [] }
  | n + 1, p, e =>
    if hp : p < MAX_POLICIES then
      match enforce_rules get_current_time p (e.active_policies ⟨p, hp⟩) state
          (e.active_policies ⟨p, hp⟩).rule_count 0 e with
      | none => none
      | some (e1, some (code, calls)) => some { engine := e1, result := code, calls := calls }
      | some (e1, none) => enforce_policies get_current_time state n (p + 1) e1
    else none

/-- `governance_enforce`.  `get_current_time p r` is the clock reading taken
when rule `r` of policy `p` is logged; `context` is not used by the body. -/
def governance_enforce (get_current_time : Nat → Nat → Nat) (engine : governance_engine)
    (_context : String) (state : system_state) : Option enforce_outcome :=
  enforce_policies get_current_time state engine.policy_count 0 engine

/-! ## The bytes of a policy

The record `nano_policy` keeps, for each `char` array, the string that was
handed to it.  The functions below give the bytes the C object holds: every
member of the struct has a character type, so the members follow each other
without padding, and an array of `n` characters keeps the first `n` bytes of
its string, with no terminator when the string has `n` bytes or more. -/

/-- The bytes of a C string: the UTF-8 bytes up to the first NUL. -/
def c_bytes (s : String) : List Nat :=
  (s.data.flatMap fun c => (String.utf8EncodeChar c).map UInt8.toNat).takeWhile (· ≠ 0)

/-- The content of a `char` array of `size` bytes that holds the string `s`:
the first `size` bytes of `s`, and zero bytes behind a shorter string. -/
def field_image (size : Nat) (s : String) : List Nat :=
  (c_bytes s).take size ++ List.replicate (size - ((c_bytes s).take size).length) 0

/-- The bytes of one element of `rules`: `condition`, `action`, `message`. -/
def rule_image (rule : policy_rule) : List Nat :=
  field_image sizeof_condition rule.condition ++ (rule.action % 256) ::
    field_image sizeof_message rule.message

/-- The bytes of a `nano_policy` object: `policy_id`, `rule_count`, the ten
rules, `signature`, `public_key`. -/
def policy_image (policy : nano_policy) : List Nat :=
  field_image sizeof_policy_id policy.policy_id ++ (policy.rule_count % 256) ::
    ((List.finRange MAX_RULES_PER_POLICY).flatMap fun r => rule_image (policy.rules r)) ++
    ((List.finRange 64).map fun i => policy.signature i % 256) ++
    ((List.finRange 32).map fun i => policy.public_key i % 256)

/-- The C string that starts at byte `offset` of a memory block: the bytes up
to the first NUL.  (When the block holds no NUL from `offset` on, the C read
leaves the block; the value is then the rest of the block.) -/
def c_string_from (block : List Nat) (offset : Nat) : List Nat :=
  (block.drop offset).takeWhile (· ≠ 0)

/-- The C string that `strcmp` and `strcpy` read at `policy->policy_id`: it
ends inside the 13-byte field only when the identifier has fewer than 13
bytes, and otherwise runs on through `rule_count` and the rules. -/
def id_c_string (policy : nano_policy) : List Nat :=
  c_string_from (policy_image policy) 0

/-- The identifier that the 13-byte field `policy_id` holds. -/
def id_field (policy : nano_policy) : List Nat :=
  (c_bytes policy.policy_id).take sizeof_policy_id

/-- The C string that `strcpy` reads at `policy->rules[r].message`. -/
def message_c_string (policy : nano_policy) (r : Nat) : List Nat :=
  c_string_from (policy_image policy)
    (sizeof_policy_id + 1 + (sizeof_condition + 1 + sizeof_message) * r + sizeof_condition + 1)

/-! ## `load_policy` -/

/-- The conflict loop of `load_policy`, `for (i = 0; i < policy_count; i++)`,
entered only when `policy_count < MAX_POLICIES`: `n` iterations remain, `i` is
the current index; `true` when the loop executed `return 0`.  The test
`strcmp(a->policy_id, b->policy_id) == 0` holds when the C strings read at the
two fields are equal. -/
def policy_conflict (engine : governance_engine) (new_policy : nano_policy) :
    (n i : Nat) → i + n ≤ MAX_POLICIES → Bool
  | 0, _, _ => false
  | n + 1, i, h =>
    if id_c_string (engine.active_policies ⟨i, by omega⟩) = id_c_string new_policy then true
    else policy_conflict engine new_policy n (i + 1) (by omega)

/-- `load_policy`: the engine after the call and the returned code. -/
def load_policy (engine : governance_engine) (new_policy : nano_policy) :
    governance_engine × Nat :=
  if hfull : MAX_POLICIES ≤ engine.policy_count then (engine, 0)
  else if verify_policy_signature new_policy = 0 then (engine, 0)
  else if policy_conflict engine new_policy engine.policy_count 0 (by omega) then (engine, 0)
  else
    ({ engine with
        active_policies :=
          Function.update engine.active_policies ⟨engine.policy_count, by omega⟩ new_policy
        policy_count := engine.policy_count + 1 }, 1)

/-! ## Specification-side definitions -/

/-- The engine indexes no array out of bounds: at most `MAX_POLICIES` policies
are stored, the write cursor is inside the log, and every stored policy has at
most `MAX_RULES_PER_POLICY` rules. -/
def WellFormed (e : governance_engine) : Prop :=
  e.policy_count ≤ MAX_POLICIES ∧ e.log_index < DECISION_LOG_SIZE ∧
    ∀ p : Fin MAX_POLICIES, p.val < e.policy_count →
      (e.active_policies p).rule_count ≤ MAX_RULES_PER_POLICY

instance (e : governance_engine) : Decidable (WellFormed e) := by
  unfold WellFormed; infer_instance

/-- Code returned for a terminal action: Deny (1) gives 1, Quarantine (3)
gives 2, SelfDestruct (4) gives 3; every other action is not terminal. -/
def terminal_code : Nat → Option Nat
  | 1 => some 1
  | 3 => some 2
  | 4 => some 3
  | _ => none

/-- Rule number `r` of a policy, when `r` is inside the rules array. -/
def rule_at (policy : nano_policy) (r : Nat) : Option policy_rule :=
  if h : r < MAX_RULES_PER_POLICY then some (policy.rules ⟨r, h⟩) else none

/-- The rules of a policy in declared order: indices `0 .. rule_count - 1`. -/
def rules_of (policy : nano_policy) : List policy_rule :=
  (List.range policy.rule_count).filterMap (rule_at policy)

/-- Policy number `p` of the store, when `p` is inside the policy array. -/
def policy_at (e : governance_engine) (p : Nat) : Option nano_policy :=
  if h : p < MAX_POLICIES then some (e.active_policies ⟨p, h⟩) else none

/-- The stored policies in store order: indices `0 .. policy_count - 1`. -/
def stored_policies (e : governance_engine) : List nano_policy :=
  (List.range e.policy_count).filterMap (policy_at e)

/-- Every stored rule, policies in store order and the rules of each policy in
declared order. -/
def stored_rules (e : governance_engine) : List policy_rule :=
  (stored_policies e).flatMap rules_of

/-- A rule is a terminal match when its condition evaluates true and its
action is terminal; the value is then the code of that action. -/
def terminal_match (state : system_state) (rule : policy_rule) : Option Nat :=
  if evaluate_condition rule.condition state ≠ 0 then terminal_code rule.action else none

/-- Specification of the decision: the code of the first terminal match in
scan order, and Allow (0) when there is none. -/
def first_terminal (e : governance_engine) (state : system_state) : Nat :=
  ((stored_rules e).findSome? (terminal_match state)).getD 0

/-- The state of `test_enforcement_decision`; the unnamed fields are zero. -/
def test_state : system_state :=
  { total_memory := 5000, crypto_algorithm := 1, dependency_count := 0, execution_time := 0,
    stack_usage := 0, network_connections := 0, uptime := 0 }

/-- The compliant state of the second scenario; the unnamed fields are zero. -/
def compliant_state : system_state :=
  { total_memory := 100, crypto_algorithm := 1, dependency_count := 0, execution_time := 0,
    stack_usage := 0, network_connections := 0, uptime := 0 }

/-- The candidate of `test_policy_loading`: identifier, one rule, and every
other byte (signature and public key included) zero.  The initialiser
`"GOV-SEC-TEST01"` has 14 characters; the 13-byte array `policy_id` keeps the
first 13 of them and no terminator. -/
def test_policy : nano_policy :=
  { zero_policy with
    policy_id := "GOV-SEC-TEST0"
    rule_count := 1
    rules := Function.update zero_policy.rules 0
      { condition := "total_memory > 100", action := 1, message := "" } }

/-- The candidate `test_policy` under another identifier. -/
def test_policy_named (id : String) : nano_policy :=
  { test_policy with policy_id := id }

/-- The freshly initialised engine after one successful load. -/
def loaded_engine : governance_engine :=
  (load_policy (governance_init zero_engine) (test_policy_named "GOV-SEC-0001")).1

/-- A full store: the freshly initialised engine after four successful loads. -/
def full_engine : governance_engine :=
  (load_policy (load_policy (load_policy loaded_engine
    (test_policy_named "GOV-SEC-0002")).1 (test_policy_named "GOV-SEC-0003")).1
    (test_policy_named "GOV-SEC-0004")).1

/-- A policy whose first `rule_count` rules carry the given actions. -/
def policy_of_actions (id : String) (actions : List Nat) : nano_policy :=
  { zero_policy with
    policy_id := id
    rule_count := actions.length
    rules := fun r => { zero_rule with action := actions.getD r.val 0 } }

/-- An engine with two layered policies: Allow, Log and an unassigned action
code in the first, Log, Quarantine and Deny in the second. -/
def layered_engine : governance_engine :=
  { zero_engine with
    active_policies := Function.update (Function.update zero_engine.active_policies 0
      (policy_of_actions "GOV-LAYER-A" [0, 2, 9])) 1
      (policy_of_actions "GOV-LAYER-B" [2, 3, 1])
    policy_count := 2 }

/-- Engine states reachable from `governance_init` by calls of `load_policy`
and of `governance_enforce`. -/
inductive Reachable : governance_engine → Prop where
  | init (e0 : governance_engine) : Reachable (governance_init e0)
  | load (e : governance_engine) (c : nano_policy) :
      Reachable e → Reachable (load_policy e c).1
  | enforce (e : governance_engine) (clk : Nat → Nat → Nat) (ctx : String) (s : system_state)
      (out : enforce_outcome) :
      Reachable e → governance_enforce clk e ctx s = some out → Reachable out.engine

/-- The identifier check of `load_policy` finds the candidate in the store:
for some stored policy, `strcmp` of its `policy_id` and the candidate's is 0. -/
def DuplicateId (e : governance_engine) (c : nano_policy) : Prop :=
  ∃ i : Fin MAX_POLICIES, i.val < e.policy_count ∧
    id_c_string (e.active_policies i) = id_c_string c

instance (e : governance_engine) (c : nano_policy) : Decidable (DuplicateId e c) := by
  unfold DuplicateId; infer_instance

/-! ## The trace of one enforcement call -/

/-- A rule together with the place it is stored at: policy index `p`, rule
index `r`, the policy and the rule. -/
structure rule_site where
  p : Nat
  r : Nat
  policy : nano_policy
  rule : policy_rule

/-- Rule number `r` of policy number `p`, when `r` is inside the rules array. -/
def site_at (p : Nat) (policy : nano_policy) (r : Nat) : Option rule_site :=
  (rule_at policy r).map fun rule => { p := p, r := r, policy := policy, rule := rule }

/-- The rules of policy number `p`, in declared order, with their places. -/
def sites_of (p : Nat) (policy : nano_policy) : List rule_site :=
  (List.range policy.rule_count).filterMap (site_at p policy)

/-- The rules of the policy stored at index `p`, nothing when `p` is outside
the policy array. -/
def sites_at (e : governance_engine) (p : Nat) : List rule_site :=
  match policy_at e p with
  | some policy => sites_of p policy
  | none => []

/-- Every stored rule with its place, in scan order. -/
def stored_sites (e : governance_engine) : List rule_site :=
  (List.range e.policy_count).flatMap (sites_at e)

/-- The condition of the rule evaluates true on the state. -/
def is_match (state : system_state) (x : rule_site) : Bool :=
  decide (evaluate_condition x.rule.condition state ≠ 0)

/-- The action of the rule is terminal. -/
def is_terminal (x : rule_site) : Bool :=
  (terminal_code x.rule.action).isSome

/-- The elements of a list up to and including the first one at which `stop`
holds; the whole list when there is none. -/
def through_first {α : Type} (stop : α → Bool) : List α → List α
  | [] => []
  | x :: xs => if stop x then [x] else x :: through_first stop xs

/-- Specification of what one call logs: the rules whose condition evaluates
true, in scan order, up to and including the first terminal one. -/
def logged_sites (e : governance_engine) (state : system_state) : List rule_site :=
  through_first is_terminal ((stored_sites e).filter (is_match state))

/-- One append to the decision log for the rule at `x`: the block
`// Log the decision`, which is defined while the cursor is inside the log. -/
def append_site (get_current_time : Nat → Nat → Nat) (e : governance_engine) (x : rule_site) :
    governance_engine :=
  if hl : e.log_index < DECISION_LOG_SIZE then
    log_decision (get_current_time x.p x.r) x.policy x.rule e hl
  else e

/-- The handlers called on the way to returning `code`. -/
def handler_calls : Nat → List handler
  | 2 => [handler.quarantine_device]
  | 3 => [handler.secure_erase_all, handler.halt_device]
  | _ => []


/-! ## The decision log as a history -/

/-- The entry under the write cursor (all zero when the cursor is outside the
log, where nothing can be appended). -/
def cursor_slot (e : governance_engine) : decision_log_entry :=
  if hl : e.log_index < DECISION_LOG_SIZE then e.log ⟨e.log_index, hl⟩ else zero_entry

/-- The entries that successive appends for the given rules write, in the
order they are written. -/
def entries_written (get_current_time : Nat → Nat → Nat) :
    governance_engine → List rule_site → List decision_log_entry
  | _, [] => []
  | e, x :: xs =>
    decision_entry (get_current_time x.p x.r) x.policy x.rule (cursor_slot e) ::
      entries_written get_current_time (append_site get_current_time e x) xs

/-- The entries one call of `governance_enforce` appends, in order. -/
def enforce_entries (get_current_time : Nat → Nat → Nat) (e : governance_engine)
    (state : system_state) : List decision_log_entry :=
  entries_written get_current_time e (logged_sites e state)

/-! ## The bytes of the decision log

The record-level `log_decision` above shows which entries are written and with
which arguments.  What `strcpy` does when its source is longer than the field
it is aimed at shows only on the bytes.  This section follows the same code on
the memory that starts at `&engine->log[0]`, a function from the byte offset
to the byte, for the usual layout (4-byte `uint32_t` on a 4-byte boundary,
little-endian): an entry takes 60 bytes, `timestamp` at 0, `policy_id` at 4,
`rule_id` at 17, `action_taken` at 26, `details` at 27 and one byte of
padding; behind the hundred entries come `log_index` at 6000, two bytes of
padding and `enforcement_flags` at 6004, and the engine ends at 6008.  The
memory does not end there: a write that passes the end of the engine lands in
the bytes behind it. -/

abbrev sizeof_entry : Nat := 60
abbrev offset_entry_policy_id : Nat := 4
abbrev offset_entry_action_taken : Nat := 26
abbrev offset_entry_details : Nat := 27
abbrev offset_log_index : Nat := DECISION_LOG_SIZE * sizeof_entry
abbrev offset_enforcement_flags : Nat := offset_log_index + 4

/-- The memory after writing `bytes` from `offset` on. -/
def write_bytes (mem : Nat → Nat) (offset : Nat) (bytes : List Nat) : Nat → Nat :=
  fun a => if offset ≤ a ∧ a < offset + bytes.length then bytes.getD (a - offset) 0 else mem a

/-- The `n` bytes of an unsigned integer, lowest byte first. -/
def little_endian (n value : Nat) : List Nat :=
  (List.range n).map fun i => value / 256 ^ i % 256

/-- The value of `engine->log_index` in the memory. -/
def read_log_index (mem : Nat → Nat) : Nat :=
  mem offset_log_index + 256 * mem (offset_log_index + 1)

/-- The memory of a log that `memset` has zeroed. -/
def zero_log : Nat → Nat := fun _ => 0

/-- The block `// Log the decision` on the bytes, for rule `r` of `policy`
with action `action`: the address of the entry is taken from `log_index`, the
time stamp is stored, the two `strcpy` calls write the C strings read at
`policy->policy_id` and at `policy->rules[r].message` with their terminators,
the action is stored, and `log_index` is read again, advanced and stored. -/
def log_decision_mem (timestamp : Nat) (policy : nano_policy) (r action : Nat)
    (mem : Nat → Nat) : Option (Nat → Nat) :=
  if read_log_index mem < DECISION_LOG_SIZE then
    let entry := sizeof_entry * read_log_index mem
    let m1 := write_bytes mem entry (little_endian 4 timestamp)
    let m2 := write_bytes m1 (entry + offset_entry_policy_id) (id_c_string policy ++ [0])
    let m3 := write_bytes m2 (entry + offset_entry_details) (message_c_string policy r ++ [0])
    let m4 := write_bytes m3 (entry + offset_entry_action_taken) [action % 256]
    some (write_bytes m4 offset_log_index
      (little_endian 2 ((read_log_index m4 + 1) % DECISION_LOG_SIZE)))
  else none

/-- The inner loop of `governance_enforce` on the bytes of the log, with the
conventions of `enforce_rules`. -/
def enforce_rules_mem (get_current_time : Nat → Nat → Nat) (p : Nat) (policy : nano_policy)
    (state : system_state) :
    Nat → Nat → (Nat → Nat) → Option ((Nat → Nat) × Option (Nat × List handler))
  | 0, _, mem => some (mem, none)
  | n + 1, r, mem =>
    if hr : r < MAX_RULES_PER_POLICY then
      if evaluate_condition (policy.rules ⟨r, hr⟩).condition state ≠ 0 then
        match log_decision_mem (get_current_time p r) policy r (policy.rules ⟨r, hr⟩).action
            mem with
        | none => none
        | some m1 =>
          match (policy.rules ⟨r, hr⟩).action with
          | 0 => enforce_rules_mem get_current_time p policy state n (r + 1) m1
          | 1 => some (m1, some (1, []))
          | 2 => enforce_rules_mem get_current_time p policy state n (r + 1) m1
          | 3 => some (m1, some (2, [handler.quarantine_device]))
          | 4 => some (m1, some (3, [handler.secure_erase_all, handler.halt_device]))
          | _ => enforce_rules_mem get_current_time p policy state n (r + 1) m1
      else enforce_rules_mem get_current_time p policy state n (r + 1) mem
    else none

/-- The outer loop of `governance_enforce` on the bytes of the log: the policy
store and `policy_count`, which lie in front of the log, are read from the
record `engine`. -/
def enforce_policies_mem (get_current_time : Nat → Nat → Nat) (engine : governance_engine)
    (state : system_state) :
    Nat → Nat → (Nat → Nat) → Option ((Nat → Nat) × Nat × List handler)
  | 0, _, mem => some (mem, 0, [])
  | n + 1, p, mem =>
    if hp : p < MAX_POLICIES then
      match enforce_rules_mem get_current_time p (engine.active_policies ⟨p, hp⟩) state
          (engine.active_policies ⟨p, hp⟩).rule_count 0 mem with
      | none => none
      | some (m1, some (code, calls)) => some (m1, code, calls)
      | some (m1, none) => enforce_policies_mem get_current_time engine state n (p + 1) m1
    else none

/-- `governance_enforce` on the bytes of the log: the memory after the call,
the returned code and the handlers called. -/
def governance_enforce_mem (get_current_time : Nat → Nat → Nat) (engine : governance_engine)
    (_context : String) (state : system_state) (mem : Nat → Nat) :
    Option ((Nat → Nat) × Nat × List handler) :=
  enforce_policies_mem get_current_time engine state engine.policy_count 0 mem

/-- The bytes of the log after `n` enforcement calls on a freshly initialised
engine with the state of `test_enforcement_decision`, call number `k` reading
the clock as `k`. -/
def replay_mem : Nat → Option (Nat → Nat)
  | 0 => some zero_log
  | n + 1 =>
    match replay_mem n with
    | none => none
    | some mem =>
      match governance_enforce_mem (fun _ _ => n) (governance_init zero_engine) "test"
          test_state mem with
      | none => none
      | some out => some out.1

/-! ## The Linux security-module adapter (`linux_security_module.c`) -/

/-- The errno value `EPERM` of the kernel headers the adapter includes. -/
abbrev EPERM : Int := 1

/-- The errno value `EACCES` of the kernel headers the adapter includes. -/
abbrev EACCES : Int := 13

/-- `gitdigital_file_permission`: `gitdigital_engine` is the static engine of
the adapter and `state` is what `monitor_system_state` filled in (the two
assignments to `state.file_path` and `state.access_mask` name fields that
`system_state` does not declare and no engine code reads).  The value is the
engine after the call and the hook's return value. -/
def gitdigital_file_permission (get_current_time : Nat → Nat → Nat)
    (gitdigital_engine : governance_engine) (state : system_state) :
    Option (governance_engine × Int) :=
  match governance_enforce get_current_time gitdigital_engine "file_access" state with
  | none => none
  | some out =>
    some (out.engine,
      if out.result = 1 then -EPERM
      else if out.result = 2 then -EACCES
      else 0)

/-- `gitdigital_module_load`, with the same conventions. -/
def gitdigital_module_load (get_current_time : Nat → Nat → Nat)
    (gitdigital_engine : governance_engine) (state : system_state) :
    Option (governance_engine × Int) :=
  match governance_enforce get_current_time gitdigital_engine "module_load" state with
  | none => none
  | some out => some (out.engine, if out.result = 1 then -EPERM else 0)

/-- An engine whose only stored rule has action Quarantine. -/
def quarantine_engine : governance_engine :=
  { zero_engine with
    active_policies := Function.update zero_engine.active_policies 0
      (policy_of_actions "GOV-SEC-QUAR" [3])
    policy_count := 1 }

/-! ## Rule counts and identifiers of stored policies -/

/-- Engine states reachable from `governance_init` by calls of `load_policy`
alone. -/
inductive LoadReachable : governance_engine → Prop where
  | init (e0 : governance_engine) : LoadReachable (governance_init e0)
  | load (e : governance_engine) (c : nano_policy) :
      LoadReachable e → LoadReachable (load_policy e c).1

/-- A candidate that declares eleven rules. -/
def oversized_policy : nano_policy :=
  { test_policy_named "GOV-SEC-0001" with rule_count := 11 }

/-- An engine whose only policy declares eleven rules, the ten in the array
all with action Allow. -/
def overlong_engine : governance_engine :=
  { zero_engine with
    active_policies := Function.update zero_engine.active_policies 0
      { policy_of_actions "GOV-SEC-LONG" [] with rule_count := 11 }
    policy_count := 1 }

/-! ## Sizes of the character arrays -/

/-- The number of bytes `strcpy(dst, src)` writes: the bytes of `src` and the
terminating NUL. -/
def strcpy_bytes (src : String) : Nat := src.utf8ByteSize + 1

/-- The bytes `strcpy` writes fit in a destination array of `size` bytes. -/
def strcpy_fits (size : Nat) (src : String) : Prop := strcpy_bytes src ≤ size

instance (size : Nat) (src : String) : Decidable (strcpy_fits size src) := by
  unfold strcpy_fits; infer_instance


/-! ## The compile-time enforcer (`compile-time-enforcer.c`) -/

/-- The second list is an initial segment of the first. -/
def starts_with : List Char → List Char → Bool
  | _, [] => true
  | [], _ :: _ => false
  | h :: hs, n :: ns => h == n && starts_with hs ns

/-- The second list occurs in the first as a run of consecutive characters. -/
def occurs_in : List Char → List Char → Bool
  | [], needle => starts_with [] needle
  | h :: hs, needle => starts_with (h :: hs) needle || occurs_in hs needle

/-- The C test `strstr(haystack, needle)`: `needle` occurs in `haystack`. -/
def strstr (haystack needle : String) : Bool :=
  occurs_in haystack.data needle.data

/-- The array `banned` of `check_source_file`. -/
def banned : List String := ["rand()", "srand()", "malloc", "time(", "sleep("]

/-- What the enforcer prints. -/
inductive report where
  | banner
  | violation (pattern filename : String)
  | large_buffer (filename : String)
  | external_dependency (filename : String)
  | build_failed (total_violations : Nat)
  | checks_passed
deriving DecidableEq

/-- The largest value of the C type `int` (32 bits). -/
abbrev INT_MAX : Nat := 2147483647

/-- Addition of two non-negative `int` values: signed overflow is undefined
behaviour in C, here `none`. -/
def int_add (a b : Nat) : Option Nat :=
  if a + b ≤ INT_MAX then some (a + b) else none

/-- The loop `for (i = 0; i < 5; i++)` over the banned patterns for one line
read: the accumulator is `violations` and the output so far. -/
def check_banned (filename line : String) :
    List String → Nat × List report → Option (Nat × List report)
  | [], acc => some acc
  | pattern :: rest, acc =>
    if strstr line pattern then
      match int_add acc.1 1 with
      | none => none
      | some v =>
        check_banned filename line rest (v, acc.2 ++ [report.violation pattern filename])
    else check_banned filename line rest acc

/-- The two warnings printed for one line read. -/
def line_warnings (filename line : String) : List report :=
  (if strstr line "[256]" || strstr line "[512]" then [report.large_buffer filename] else []) ++
    (if strstr line "#include <" && !strstr line "quantum_safe.h" &&
        !strstr line "governance_engine.h" then
      [report.external_dependency filename]
    else [])

/-- The `while (fgets(...))` loop of `check_source_file` over the lines read. -/
def check_lines (filename : String) :
    List String → Nat × List report → Option (Nat × List report)
  | [], acc => some acc
  | line :: rest, acc =>
    match check_banned filename line banned acc with
    | none => none
    | some acc1 => check_lines filename rest (acc1.1, acc1.2 ++ line_warnings filename line)

/-- `check_source_file`.  `fopen filename` is `none` when the file cannot be
opened and otherwise the strings that the successive `fgets` calls read from
it; the value is the returned `violations` and what was printed. -/
def check_source_file (fopen : String → Option (List String)) (filename : String) :
    Option (Nat × List report) :=
  match fopen filename with
  | none => some (0, [])
  | some lines => check_lines filename lines (0, [])

/-- The loop `for (i = 1; i < argc; i++)` of `main` over the file names: the
accumulator is `total_violations` and the output so far. -/
def check_files (fopen : String → Option (List String)) :
    List String → Nat × List report → Option (Nat × List report)
  | [], acc => some acc
  | filename :: rest, acc =>
    match check_source_file fopen filename with
    | none => none
    | some found =>
      match int_add acc.1 found.1 with
      | none => none
      | some total => check_files fopen rest (total, acc.2 ++ found.2)

/-- `main`: `argv` includes the program name `argv[0]`; the value is the exit
code and what was printed. -/
def main (fopen : String → Option (List String)) (argv : List String) :
    Option (Nat × List report) :=
  match check_files fopen argv.tail (0, [report.banner]) with
  | none => none
  | some run =>
    if run.1 > 0 then some (1, run.2 ++ [report.build_failed run.1])
    else some (0, run.2 ++ [report.checks_passed])

/-- The number of pairs (line read, banned pattern) such that the pattern
occurs in the line. -/
def violation_pairs (lines : List String) : Nat :=
  ((lines.flatMap fun line => banned.map fun pattern => (line, pattern)).filter
    fun pair => strstr pair.1 pair.2).length

/-- The number of such pairs in a file, 0 for a file that cannot be opened. -/
def file_pairs (fopen : String → Option (List String)) (filename : String) : Nat :=
  match fopen filename with
  | none => 0
  | some lines => violation_pairs lines

/-- A two-file world: `a.c` with four lines, and no other file. -/
def sample_files (filename : String) : Option (List String) :=
  if filename = "a.c" then
    some ["int x = rand();", "srand(time(0));", "#include <stdio.h>", "char buf[512];"]
  else none


/-! ## The enforcement loop -/

theorem terminal_code_cases (a : Nat) :
    (terminal_code a = none ∧ a ≠ 1 ∧ a ≠ 3 ∧ a ≠ 4) ∨ (a = 1 ∧ terminal_code a = some 1) ∨
      (a = 3 ∧ terminal_code a = some 2) ∨ (a = 4 ∧ terminal_code a = some 3) := by
  match a with
  | 0 => simp [terminal_code]
  | 1 => simp [terminal_code]
  | 2 => simp [terminal_code]
  | 3 => simp [terminal_code]
  | 4 => simp [terminal_code]
  | n + 5 => simp [terminal_code]

/-- The rules with indices `r .. r + n - 1` of a policy. -/
theorem rules_range_succ (policy : nano_policy) (r n : Nat) (hr : r < MAX_RULES_PER_POLICY) :
    (List.range' r (n + 1)).filterMap (rule_at policy) =
      policy.rules ⟨r, hr⟩ :: (List.range' (r + 1) n).filterMap (rule_at policy) := by
  rw [List.range'_succ, List.filterMap_cons]
  simp [rule_at, hr]

/-- The inner loop on a policy whose remaining indices are inside the rules
array, started with the write cursor inside the log: it is defined, changes
only the log and the cursor, keeps the cursor inside the log, and executes a
`return` exactly at the first terminal match among the remaining rules. -/
theorem enforce_rules_scan (clk : Nat → Nat → Nat) (p : Nat) (policy : nano_policy)
    (s : system_state) :
    ∀ (n r : Nat) (e : governance_engine), r + n ≤ MAX_RULES_PER_POLICY →
      e.log_index < DECISION_LOG_SIZE →
      ∃ e1 res, enforce_rules clk p policy s n r e = some (e1, res) ∧
        e1.active_policies = e.active_policies ∧ e1.policy_count = e.policy_count ∧
        e1.enforcement_flags = e.enforcement_flags ∧
        e1.log_index < DECISION_LOG_SIZE ∧
        res.map Prod.fst =
          ((List.range' r n).filterMap (rule_at policy)).findSome? (terminal_match s) := by
  intro n
  induction n with
  | zero => intro r e _ hl; exact ⟨e, none, rfl, rfl, rfl, rfl, hl, by simp⟩
  | succ n ih =>
    intro r e hrn hl
    have hr : r < MAX_RULES_PER_POLICY := by omega
    rw [rules_range_succ policy r n hr, List.findSome?_cons]
    unfold enforce_rules
    simp only [hr, hl, dite_true]
    by_cases hc : evaluate_condition (policy.rules ⟨r, hr⟩).condition s = 0
    · simp only [hc, ne_eq, not_true_eq_false, ite_false, terminal_match]
      exact ih (r + 1) e (by omega) hl
    · simp only [hc, ne_eq, not_false_eq_true, ite_true, terminal_match]
      have ih1 := ih (r + 1) (log_decision (clk p r) policy (policy.rules ⟨r, hr⟩) e hl)
        (by omega) (Nat.mod_lt _ (by decide))
      have hm : (log_decision (clk p r) policy (policy.rules ⟨r, hr⟩) e hl).log_index
          < DECISION_LOG_SIZE := Nat.mod_lt _ (by decide)
      rcases terminal_code_cases (policy.rules ⟨r, hr⟩).action with h | h | h | h
      · obtain ⟨hn, h1, h3, h4⟩ := h
        rw [hn]
        split <;> first | contradiction | exact ih1
      · obtain ⟨ha, hn⟩ := h
        rw [hn]; simp only [ha]
        exact ⟨_, _, rfl, rfl, rfl, rfl, hm, rfl⟩
      · obtain ⟨ha, hn⟩ := h
        rw [hn]; simp only [ha]
        exact ⟨_, _, rfl, rfl, rfl, rfl, hm, rfl⟩
      · obtain ⟨ha, hn⟩ := h
        rw [hn]; simp only [ha]
        exact ⟨_, _, rfl, rfl, rfl, rfl, hm, rfl⟩

theorem policy_at_congr (e e1 : governance_engine)
    (h : e1.active_policies = e.active_policies) : policy_at e1 = policy_at e := by
  funext p
  simp [policy_at, h]

/-- The outer loop on an engine whose remaining policies are inside the store
and have their rules inside the rules array: it is defined, changes only the
log and the cursor, and returns the code of the first terminal match among the
rules of the remaining policies, or 0. -/
theorem enforce_policies_scan (clk : Nat → Nat → Nat) (s : system_state) :
    ∀ (n p : Nat) (e : governance_engine), p + n ≤ MAX_POLICIES →
      e.log_index < DECISION_LOG_SIZE →
      (∀ q : Fin MAX_POLICIES, p ≤ q.val → q.val < p + n →
        (e.active_policies q).rule_count ≤ MAX_RULES_PER_POLICY) →
      ∃ out, enforce_policies clk s n p e = some out ∧
        out.engine.active_policies = e.active_policies ∧
        out.engine.policy_count = e.policy_count ∧
        out.engine.enforcement_flags = e.enforcement_flags ∧
        out.engine.log_index < DECISION_LOG_SIZE ∧
        out.result =
          ((((List.range' p n).filterMap (policy_at e)).flatMap rules_of).findSome?
            (terminal_match s)).getD 0 := by
  intro n
  induction n with
  | zero => intro p e _ hl _; exact ⟨_, rfl, rfl, rfl, rfl, hl, by simp⟩
  | succ n ih =>
    intro p e hpn hl hrules
    have hp : p < MAX_POLICIES := by omega
    have hrc := hrules ⟨p, hp⟩ (le_refl p) (by simp)
    obtain ⟨e1, res, hrun, hpol, hcnt, hflg, hl1, hres⟩ :=
      enforce_rules_scan clk p (e.active_policies ⟨p, hp⟩) s
        (e.active_policies ⟨p, hp⟩).rule_count 0 e (by omega) hl
    have hlist : (List.range' p (n + 1)).filterMap (policy_at e) =
        e.active_policies ⟨p, hp⟩ :: (List.range' (p + 1) n).filterMap (policy_at e) := by
      rw [List.range'_succ, List.filterMap_cons]
      simp [policy_at, hp]
    rw [hlist, List.flatMap_cons, List.findSome?_append]
    have hfirst : (rules_of (e.active_policies ⟨p, hp⟩)).findSome? (terminal_match s) =
        res.map Prod.fst := by
      rw [hres, rules_of, List.range_eq_range']
    rw [hfirst]
    unfold enforce_policies
    simp only [hp, dite_true, hrun]
    match res with
    | some (code, calls) => exact ⟨_, rfl, hpol, hcnt, hflg, hl1, by simp⟩
    | none =>
      obtain ⟨out, hout, h1, h2, h3, h4, h5⟩ := ih (p + 1) e1 (by omega) hl1
        (fun q hq1 hq2 => by rw [hpol]; exact hrules q (by omega) (by omega))
      refine ⟨out, hout, h1.trans hpol, h2.trans hcnt, h3.trans hflg, h4, ?_⟩
      rw [h5, policy_at_congr e e1 hpol]
      simp

theorem stored_rules_eq (e : governance_engine) :
    stored_rules e =
      ((List.range' 0 e.policy_count).filterMap (policy_at e)).flatMap rules_of := by
  rw [stored_rules, stored_policies, List.range_eq_range']

/-- On a well-formed engine `governance_enforce` is defined and changes
nothing but the log and its cursor. -/
theorem governance_enforce_frame (clk : Nat → Nat → Nat) (e : governance_engine) (ctx : String)
    (s : system_state) (hwf : WellFormed e) :
    ∃ out, governance_enforce clk e ctx s = some out ∧
      out.engine.active_policies = e.active_policies ∧
      out.engine.policy_count = e.policy_count ∧
      out.engine.enforcement_flags = e.enforcement_flags ∧
      out.engine.log_index < DECISION_LOG_SIZE ∧
      out.result = first_terminal e s := by
  obtain ⟨hcount, hlog, hrules⟩ := hwf
  obtain ⟨out, hout, h1, h2, h3, h4, h5⟩ :=
    enforce_policies_scan clk s e.policy_count 0 e (by omega) hlog
      (fun q _ hq => hrules q (by omega))
  exact ⟨out, hout, h1, h2, h3, h4, by rw [h5, first_terminal, stored_rules_eq]⟩

/-- Whenever the inner loop is defined it leaves the policy store, the policy
count and the enforcement flags as they were. -/
theorem enforce_rules_preserves (clk : Nat → Nat → Nat) (p : Nat) (policy : nano_policy)
    (s : system_state) :
    ∀ (n r : Nat) (e e1 : governance_engine) (res : Option (Nat × List handler)),
      enforce_rules clk p policy s n r e = some (e1, res) →
      e1.active_policies = e.active_policies ∧ e1.policy_count = e.policy_count ∧
        e1.enforcement_flags = e.enforcement_flags := by
  intro n
  induction n with
  | zero =>
    intro r e e1 res h
    simp only [enforce_rules, Option.some.injEq, Prod.mk.injEq] at h
    obtain ⟨rfl, _⟩ := h
    exact ⟨rfl, rfl, rfl⟩
  | succ n ih =>
    intro r e e1 res h
    unfold enforce_rules at h
    split at h
    · split at h
      · split at h
        · rename_i hr _ hl
          have keep : ∀ e2 res2,
              enforce_rules clk p policy s n (r + 1)
                (log_decision (clk p r) policy (policy.rules ⟨r, hr⟩) e hl) = some (e2, res2) →
              e2.active_policies = e.active_policies ∧ e2.policy_count = e.policy_count ∧
                e2.enforcement_flags = e.enforcement_flags :=
            fun e2 res2 h2 =>
              ih (r + 1) (log_decision (clk p r) policy (policy.rules ⟨r, hr⟩) e hl) e2 res2 h2
          split at h
          · exact keep _ _ h
          · simp only [Option.some.injEq, Prod.mk.injEq] at h
            obtain ⟨rfl, _⟩ := h
            exact ⟨rfl, rfl, rfl⟩
          · exact keep _ _ h
          · simp only [Option.some.injEq, Prod.mk.injEq] at h
            obtain ⟨rfl, _⟩ := h
            exact ⟨rfl, rfl, rfl⟩
          · simp only [Option.some.injEq, Prod.mk.injEq] at h
            obtain ⟨rfl, _⟩ := h
            exact ⟨rfl, rfl, rfl⟩
          · exact keep _ _ h
        · exact absurd h (by simp)
      · exact ih (r + 1) e e1 res h
    · exact absurd h (by simp)

/-- Whenever the outer loop is defined it leaves the policy store, the policy
count and the enforcement flags as they were. -/
theorem enforce_policies_preserves (clk : Nat → Nat → Nat) (s : system_state) :
    ∀ (n p : Nat) (e : governance_engine) (out : enforce_outcome),
      enforce_policies clk s n p e = some out →
      out.engine.active_policies = e.active_policies ∧
        out.engine.policy_count = e.policy_count ∧
        out.engine.enforcement_flags = e.enforcement_flags := by
  intro n
  induction n with
  | zero =>
    intro p e out h
    simp only [enforce_policies, Option.some.injEq] at h
    subst h
    exact ⟨rfl, rfl, rfl⟩
  | succ n ih =>
    intro p e out h
    unfold enforce_policies at h
    split at h
    · split at h
      · exact absurd h (by simp)
      · rename_i e1 code calls hrun
        simp only [Option.some.injEq] at h
        subst h
        exact enforce_rules_preserves clk p _ s _ 0 e e1 _ hrun
      · rename_i e1 hrun
        obtain ⟨h1, h2, h3⟩ := enforce_rules_preserves clk p _ s _ 0 e e1 _ hrun
        obtain ⟨k1, k2, k3⟩ := ih (p + 1) e1 out h
        exact ⟨k1.trans h1, k2.trans h2, k3.trans h3⟩
    · exact absurd h (by simp)

/-- Whenever `governance_enforce` is defined it leaves the policy store, the
policy count and the enforcement flags as they were. -/
theorem governance_enforce_preserves (clk : Nat → Nat → Nat) (e : governance_engine)
    (ctx : String) (s : system_state) (out : enforce_outcome)
    (h : governance_enforce clk e ctx s = some out) :
    out.engine.active_policies = e.active_policies ∧
      out.engine.policy_count = e.policy_count ∧
      out.engine.enforcement_flags = e.enforcement_flags :=
  enforce_policies_preserves clk s e.policy_count 0 e out h

/-- Whenever the inner loop is defined, it executed a `return` exactly at the
first terminal match among the rules it was to visit. -/
theorem enforce_rules_result (clk : Nat → Nat → Nat) (p : Nat) (policy : nano_policy)
    (s : system_state) :
    ∀ (n r : Nat) (e e1 : governance_engine) (res : Option (Nat × List handler)),
      enforce_rules clk p policy s n r e = some (e1, res) →
      res.map Prod.fst =
        ((List.range' r n).filterMap (rule_at policy)).findSome? (terminal_match s) := by
  intro n
  induction n with
  | zero =>
    intro r e e1 res h
    simp only [enforce_rules, Option.some.injEq, Prod.mk.injEq] at h
    obtain ⟨_, rfl⟩ := h
    simp
  | succ n ih =>
    intro r e e1 res h
    unfold enforce_rules at h
    by_cases hr : r < MAX_RULES_PER_POLICY
    · rw [rules_range_succ policy r n hr, List.findSome?_cons]
      simp only [hr, dite_true] at h
      by_cases hc : evaluate_condition (policy.rules ⟨r, hr⟩).condition s = 0
      · simp only [hc, ne_eq, not_true_eq_false, ite_false] at h
        simp only [hc, ne_eq, not_true_eq_false, ite_false, terminal_match]
        exact ih (r + 1) e e1 res h
      · simp only [hc, ne_eq, not_false_eq_true, ite_true] at h
        simp only [hc, ne_eq, not_false_eq_true, ite_true, terminal_match]
        by_cases hl : e.log_index < DECISION_LOG_SIZE
        · simp only [hl, dite_true] at h
          rcases terminal_code_cases (policy.rules ⟨r, hr⟩).action with hk | hk | hk | hk
          · obtain ⟨hn, h1, h3, h4⟩ := hk
            rw [hn]
            refine ih (r + 1) (log_decision (clk p r) policy (policy.rules ⟨r, hr⟩) e hl)
              e1 res ?_
            revert h
            split <;> first | contradiction | exact id
          · obtain ⟨ha, hn⟩ := hk
            rw [hn]
            simp only [ha, Option.some.injEq, Prod.mk.injEq] at h
            obtain ⟨_, rfl⟩ := h
            rfl
          · obtain ⟨ha, hn⟩ := hk
            rw [hn]
            simp only [ha, Option.some.injEq, Prod.mk.injEq] at h
            obtain ⟨_, rfl⟩ := h
            rfl
          · obtain ⟨ha, hn⟩ := hk
            rw [hn]
            simp only [ha, Option.some.injEq, Prod.mk.injEq] at h
            obtain ⟨_, rfl⟩ := h
            rfl
        · simp [hl] at h
    · simp [hr] at h

/-- Whenever the outer loop is defined, it returned the code of the first
terminal match among the rules of the policies it was to visit, or 0. -/
theorem enforce_policies_result (clk : Nat → Nat → Nat) (s : system_state) :
    ∀ (n p : Nat) (e : governance_engine) (out : enforce_outcome),
      enforce_policies clk s n p e = some out →
      out.result =
        ((((List.range' p n).filterMap (policy_at e)).flatMap rules_of).findSome?
          (terminal_match s)).getD 0 := by
  intro n
  induction n with
  | zero =>
    intro p e out h
    simp only [enforce_policies, Option.some.injEq] at h
    subst h
    simp
  | succ n ih =>
    intro p e out h
    unfold enforce_policies at h
    by_cases hp : p < MAX_POLICIES
    · have hlist : (List.range' p (n + 1)).filterMap (policy_at e) =
          e.active_policies ⟨p, hp⟩ :: (List.range' (p + 1) n).filterMap (policy_at e) := by
        rw [List.range'_succ, List.filterMap_cons]
        simp [policy_at, hp]
      rw [hlist, List.flatMap_cons, List.findSome?_append, rules_of, List.range_eq_range']
      simp only [hp, dite_true] at h
      split at h
      · exact absurd h (by simp)
      · rename_i e1 code calls hrun
        simp only [Option.some.injEq] at h
        subst h
        rw [← enforce_rules_result clk p _ s _ 0 e e1 _ hrun]
        simp
      · rename_i e1 hrun
        rw [← enforce_rules_result clk p _ s _ 0 e e1 _ hrun, ih (p + 1) e1 out h,
          policy_at_congr e e1 (enforce_rules_preserves clk p _ s _ 0 e e1 _ hrun).1]
        simp
    · simp [hp] at h

/-- C1: for every engine state and every system state, whenever the call is
defined (and it is on every engine whose counters stay inside the arrays)
`governance_enforce` returns the code of the first rule in scan order
(policies in store order, rules in declared order) whose condition evaluates
true and whose action is terminal (Deny gives 1, Quarantine 2, SelfDestruct
3); rules with any other action do not stop the scan, and the value is Allow
(0) when no terminal rule matches. -/
theorem governance_enforce_first_terminal (clk : Nat → Nat → Nat) (e : governance_engine)
    (ctx : String) (s : system_state) :
    (WellFormed e → ∃ out, governance_enforce clk e ctx s = some out) ∧
    (∀ out, governance_enforce clk e ctx s = some out → out.result = first_terminal e s) := by
  constructor
  · intro hwf
    obtain ⟨out, hout, _⟩ := governance_enforce_frame clk e ctx s hwf
    exact ⟨out, hout⟩
  · intro out hout
    rw [enforce_policies_result clk s e.policy_count 0 e out hout, first_terminal,
      stored_rules_eq]

/-- C1 at a layered store: the scan passes Allow, Log and an unassigned code
of the first policy and Log of the second, and stops at Quarantine. -/
theorem governance_enforce_first_terminal_witness :
    WellFormed layered_engine ∧ first_terminal layered_engine test_state = 2 ∧
    ∃ out, governance_enforce (fun _ _ => 0) layered_engine "test" test_state = some out ∧
      out.result = first_terminal layered_engine test_state :=
  ⟨by decide, by decide,
    ((governance_enforce_first_terminal (fun _ _ => 0) layered_engine "test" test_state).1
      (by decide)).elim
      fun out hout => ⟨out, hout,
        (governance_enforce_first_terminal (fun _ _ => 0) layered_engine "test" test_state).2
          out hout⟩⟩

/-! ## Enforcement on a freshly initialised engine -/

/-- With the `evaluate_condition` of the source, the first rule of the default
policy is the one that fires on a freshly initialised engine, whatever the
system state: the call logs that rule in slot 0 and returns its action. -/
theorem fresh_enforce_eq (clk : Nat → Nat → Nat) (e0 : governance_engine) (ctx : String)
    (s : system_state) :
    governance_enforce clk (governance_init e0) ctx s =
      some { engine := log_decision (clk 0 0) default_policy (default_policy.rules 0)
                (governance_init e0) (Nat.zero_lt_succ 99),
             result := 1, calls := [] } := by
  rfl

/-- C2: on the state of `test_enforcement_decision` (total_memory = 5000,
kyber512, no dependency) the freshly initialised engine returns Deny and moves
`log_index` from 0 to 1, but the entry it appends carries the message of
default rule 1, "Non-quantum-safe algorithm", not the memory-limit message. -/
theorem fresh_enforce_test_state_logs_crypto_rule (clk : Nat → Nat → Nat)
    (e0 : governance_engine) (ctx : String) :
    ∃ out, governance_enforce clk (governance_init e0) ctx test_state = some out ∧
      out.result = 1 ∧ (governance_init e0).log_index = 0 ∧ out.engine.log_index = 1 ∧
      (out.engine.log 0).action_taken = 1 ∧
      (out.engine.log 0).details = "Non-quantum-safe algorithm" ∧
      (out.engine.log 0).details ≠ "Exceeds nano memory limit" := by
  refine ⟨_, fresh_enforce_eq clk e0 ctx test_state, rfl, rfl, rfl, rfl, rfl, ?_⟩
  show "Non-quantum-safe algorithm" ≠ "Exceeds nano memory limit"
  decide

/-- C3: on the compliant state total_memory = 100, kyber512, no dependency,
the freshly initialised engine returns Deny (1), not Allow, and appends a log
entry for default rule 1: `log_index` becomes 1. -/
theorem fresh_enforce_compliant_state_denied (clk : Nat → Nat → Nat)
    (e0 : governance_engine) (ctx : String) :
    ∃ out, governance_enforce clk (governance_init e0) ctx compliant_state = some out ∧
      out.result = 1 ∧ out.result ≠ 0 ∧ out.engine.log_index = 1 ∧
      out.engine.log_index ≠ (governance_init e0).log_index ∧
      (out.engine.log 0).details = "Non-quantum-safe algorithm" := by
  refine ⟨_, fresh_enforce_eq clk e0 ctx compliant_state, rfl, ?_, rfl, ?_, rfl⟩
  · show (1 : Nat) ≠ 0
    decide
  · show (1 : Nat) ≠ 0
    decide

/-- On a freshly initialised engine the call on the bytes of the log runs the
log block once, for default rule 1, and returns 1. -/
theorem fresh_enforce_mem_eq (clk : Nat → Nat → Nat) (e0 : governance_engine) (ctx : String)
    (s : system_state) (mem : Nat → Nat) :
    governance_enforce_mem clk (governance_init e0) ctx s mem =
      (log_decision_mem (clk 0 0) default_policy 0 1 mem).map fun m => (m, 1, []) := by
  show enforce_policies_mem clk (governance_init e0) s 1 0 mem = _
  unfold enforce_policies_mem
  rw [dif_pos (by decide)]
  have hpol : (governance_init e0).active_policies ⟨0, by decide⟩ = default_policy := rfl
  rw [hpol]
  have hrules : ∀ m : Nat → Nat,
      enforce_rules_mem clk 0 default_policy s default_policy.rule_count 0 m =
        (log_decision_mem (clk 0 0) default_policy 0 1 m).map fun m1 => (m1, some (1, [])) := by
    intro m
    show enforce_rules_mem clk 0 default_policy s 3 0 m = _
    unfold enforce_rules_mem
    rw [dif_pos (by decide),
      if_pos (show evaluate_condition (default_policy.rules ⟨0, by decide⟩).condition s ≠ 0
        from Nat.one_ne_zero)]
    have hact : (default_policy.rules ⟨0, by decide⟩).action = 1 := rfl
    rw [hact]
    cases log_decision_mem (clk 0 0) default_policy 0 1 m <;> rfl
  rw [hrules]
  cases log_decision_mem (clk 0 0) default_policy 0 1 mem <;> rfl

set_option maxRecDepth 1000000 in
/-- The log block for default rule 1 on a zeroed log, whatever the clock
reads: afterwards `log_index` reads 1 and the byte `action_taken` of entry 0
is 1. -/
theorem fresh_log_decision_mem (t : Nat) :
    log_decision_mem t default_policy 0 1 zero_log =
      some (write_bytes (write_bytes (write_bytes (write_bytes (write_bytes zero_log 0
        (little_endian 4 t)) 4 (id_c_string default_policy ++ [0])) 27
        (message_c_string default_policy 0 ++ [0])) 26 [1]) 6000 [1, 0]) := by
  have hid : (id_c_string default_policy ++ [0]).length = 71 := by decide
  have hmsg : (message_c_string default_policy 0 ++ [0]).length = 27 := by decide
  have hts : (little_endian 4 t).length = 4 := by simp [little_endian]
  have hcur : read_log_index (write_bytes (write_bytes (write_bytes (write_bytes zero_log 0
      (little_endian 4 t)) 4 (id_c_string default_policy ++ [0])) 27
      (message_c_string default_policy 0 ++ [0])) 26 [1]) = 0 := by
    simp [read_log_index, write_bytes, hid, hmsg, hts, zero_log, offset_log_index,
      DECISION_LOG_SIZE, sizeof_entry]
  unfold log_decision_mem
  rw [if_pos (by decide)]
  simp only [show read_log_index zero_log = 0 from rfl, Nat.mul_zero, Nat.zero_add]
  rw [show (1 : Nat) % 256 = 1 from rfl, hcur]
  rfl

/-- C4: for every system state, hence for every state with
`total_memory > 4096`, `governance_enforce` on a freshly initialised engine
returns Deny (1) and appends one decision-log entry: `log_index` goes from 0
to 1 and `log[0].action_taken` is 1.  The same holds on the bytes of the log:
the call returns 1, `log_index` reads 1 and the byte `action_taken` of entry 0
is 1. -/
theorem fresh_enforce_denies_and_logs_once (clk : Nat → Nat → Nat) (e0 : governance_engine)
    (ctx : String) (s : system_state) :
    (∃ out, governance_enforce clk (governance_init e0) ctx s = some out ∧
      out.result = 1 ∧ (governance_init e0).log_index = 0 ∧ out.engine.log_index = 1 ∧
      (out.engine.log 0).action_taken = 1) ∧
    read_log_index zero_log = 0 ∧
    (governance_enforce_mem clk (governance_init e0) ctx s zero_log).map
        (fun o => (o.2.1, read_log_index o.1, o.1 offset_entry_action_taken)) =
      some (1, 1, 1) :=
  ⟨⟨_, fresh_enforce_eq clk e0 ctx s, rfl, rfl, rfl, rfl⟩, rfl, by
    rw [fresh_enforce_mem_eq, fresh_log_decision_mem]
    rfl⟩

/-! ## `load_policy` -/

/-- A rejected candidate leaves the engine as it was. -/
theorem load_policy_rejected_unchanged (e : governance_engine) (c : nano_policy)
    (h : (load_policy e c).2 = 0) : (load_policy e c).1 = e := by
  unfold load_policy at h ⊢
  split
  · rfl
  · split
    · rfl
    · split
      · rfl
      · rename_i h1 h2 h3
        simp [h1, h2, h3] at h

/-- `load_policy` does not touch the decision log or its cursor. -/
theorem load_policy_log (e : governance_engine) (c : nano_policy) :
    (load_policy e c).1.log = e.log ∧ (load_policy e c).1.log_index = e.log_index := by
  unfold load_policy
  split
  · exact ⟨rfl, rfl⟩
  · split
    · exact ⟨rfl, rfl⟩
    · split
      · exact ⟨rfl, rfl⟩
      · exact ⟨rfl, rfl⟩

/-- The conflict loop returns early exactly when `strcmp` is 0 at one of the
slots it visits. -/
theorem policy_conflict_iff (e : governance_engine) (c : nano_policy) :
    ∀ (n i : Nat) (h : i + n ≤ MAX_POLICIES),
      policy_conflict e c n i h = true ↔
        ∃ j : Fin MAX_POLICIES, i ≤ j.val ∧ j.val < i + n ∧
          id_c_string (e.active_policies j) = id_c_string c := by
  intro n
  induction n with
  | zero =>
    intro i h
    simp only [policy_conflict, Bool.false_eq_true, false_iff]
    rintro ⟨j, h1, h2, _⟩
    omega
  | succ n ih =>
    intro i h
    unfold policy_conflict
    by_cases hid : id_c_string (e.active_policies ⟨i, by omega⟩) = id_c_string c
    · rw [if_pos hid]
      simp only [true_iff]
      exact ⟨⟨i, by omega⟩, le_refl i, by simp, hid⟩
    · rw [if_neg hid, ih (i + 1) (by omega)]
      constructor
      · rintro ⟨j, h1, h2, h3⟩
        exact ⟨j, by omega, by omega, h3⟩
      · rintro ⟨j, h1, h2, h3⟩
        have hne : j.val ≠ i := by
          intro hji
          apply hid
          have : j = ⟨i, by omega⟩ := Fin.ext hji
          rw [← this]
          exact h3
        exact ⟨j, by omega, by omega, h3⟩

/-- Below capacity, the conflict loop of `load_policy` returns early exactly
when `strcmp` finds the candidate's identifier in the store. -/
theorem policy_conflict_duplicate (e : governance_engine) (c : nano_policy)
    (h : 0 + e.policy_count ≤ MAX_POLICIES) :
    policy_conflict e c e.policy_count 0 h = true ↔ DuplicateId e c := by
  rw [policy_conflict_iff]
  constructor
  · rintro ⟨j, _, h2, h3⟩
    exact ⟨j, by omega, h3⟩
  · rintro ⟨j, h2, h3⟩
    exact ⟨j, Nat.zero_le _, by omega, h3⟩

theorem c_bytes_ne_zero (s : String) : ∀ b ∈ c_bytes s, decide (b ≠ 0) = true := by
  intro b hb
  unfold c_bytes at hb
  exact List.mem_takeWhile_imp (p := fun x => decide (x ≠ 0)) hb

/-- The C string read at `policy_id` begins with the identifier the field
holds: the first 13 bytes of the two coincide. -/
theorem id_c_string_take (policy : nano_policy) :
    (id_c_string policy).take sizeof_policy_id = id_field policy := by
  have hnz : ∀ b ∈ (c_bytes policy.policy_id).take sizeof_policy_id,
      decide (b ≠ 0) = true :=
    fun b hb => c_bytes_ne_zero _ b (List.mem_of_mem_take hb)
  have hlen : ((c_bytes policy.policy_id).take sizeof_policy_id).length ≤ sizeof_policy_id :=
    List.length_take_le _ _
  unfold id_c_string c_string_from policy_image field_image id_field
  simp only [List.drop_zero, List.append_assoc]
  rw [List.takeWhile_append_of_pos hnz]
  by_cases hfull : ((c_bytes policy.policy_id).take sizeof_policy_id).length = sizeof_policy_id
  · rw [List.take_append_of_le_length (by omega)]
    exact List.take_of_length_le (by omega)
  · obtain ⟨k, hk⟩ : ∃ k, sizeof_policy_id -
        ((c_bytes policy.policy_id).take sizeof_policy_id).length = k + 1 :=
      ⟨sizeof_policy_id - ((c_bytes policy.policy_id).take sizeof_policy_id).length - 1,
        by omega⟩
    rw [hk, List.replicate_succ]
    simp only [List.cons_append, ne_eq, not_true_eq_false, decide_False, Bool.false_eq_true,
      not_false_eq_true, List.takeWhile_cons_of_neg, List.append_nil]
    exact List.take_of_length_le hlen

/-- C5: when the store has room (`policy_count < MAX_POLICIES`), the signature
of the candidate verifies and the identifier in the candidate's `policy_id`
field differs from the identifier in the `policy_id` field of every stored
policy, `load_policy` returns 1, increases `policy_count` by exactly 1, stores
the candidate at the index equal to the old `policy_count`, and leaves every
other slot of the store, the decision log, its cursor and the flags
unchanged. -/
theorem load_policy_success (e : governance_engine) (c : nano_policy)
    (hroom : e.policy_count < MAX_POLICIES) (hsig : verify_policy_signature c ≠ 0)
    (hnew : ∀ i : Fin MAX_POLICIES, i.val < e.policy_count →
      id_field (e.active_policies i) ≠ id_field c) :
    (load_policy e c).2 = 1 ∧
      (load_policy e c).1.policy_count = e.policy_count + 1 ∧
      (load_policy e c).1.active_policies ⟨e.policy_count, hroom⟩ = c ∧
      (∀ i : Fin MAX_POLICIES, i.val ≠ e.policy_count →
        (load_policy e c).1.active_policies i = e.active_policies i) ∧
      (load_policy e c).1.log = e.log ∧
      (load_policy e c).1.log_index = e.log_index ∧
      (load_policy e c).1.enforcement_flags = e.enforcement_flags := by
  have hfull : ¬ MAX_POLICIES ≤ e.policy_count := by omega
  have hdup : policy_conflict e c e.policy_count 0 (by omega) = false := by
    rw [← Bool.not_eq_true, policy_conflict_duplicate]
    rintro ⟨i, h1, h2⟩
    apply hnew i h1
    rw [← id_c_string_take, ← id_c_string_take, h2]
  unfold load_policy
  simp only [hfull, hsig, hdup, dite_false, ite_false, Bool.false_eq_true]
  refine ⟨trivial, trivial, ?_, ?_, trivial, trivial, trivial⟩
  · exact Function.update_same _ _ _
  · intro i hi
    exact Function.update_noteq (fun h => hi (congrArg Fin.val h)) _ _

/-- C5 on the scenario of `test_policy_loading`: the field of the test policy
holds `GOV-SEC-TEST0`, that of the default policy `GOV-SEC-DEFAU`; the test
policy is loaded behind the default policy, which stays in slot 0. -/
theorem load_policy_success_witness :
    (governance_init zero_engine).policy_count < MAX_POLICIES ∧
    verify_policy_signature test_policy ≠ 0 ∧
    (∀ i : Fin MAX_POLICIES, i.val < (governance_init zero_engine).policy_count →
      id_field ((governance_init zero_engine).active_policies i) ≠ id_field test_policy) ∧
    (load_policy (governance_init zero_engine) test_policy).2 = 1 ∧
      (load_policy (governance_init zero_engine) test_policy).1.policy_count = 1 + 1 ∧
      (load_policy (governance_init zero_engine) test_policy).1.active_policies
        ⟨1, by decide⟩ = test_policy ∧
      (∀ i : Fin MAX_POLICIES, i.val ≠ 1 →
        (load_policy (governance_init zero_engine) test_policy).1.active_policies i =
          (governance_init zero_engine).active_policies i) ∧
      (load_policy (governance_init zero_engine) test_policy).1.log =
        (governance_init zero_engine).log ∧
      (load_policy (governance_init zero_engine) test_policy).1.log_index = 0 ∧
      (load_policy (governance_init zero_engine) test_policy).1.enforcement_flags = 0 :=
  ⟨by decide, by decide, by decide,
    load_policy_success (governance_init zero_engine) test_policy (by decide) (by decide)
      (by decide)⟩

/-- The identifier the default policy's field holds is `GOV-SEC-DEFAU`, and
the C string read there runs on for 70 bytes: the 13 bytes of the field, the
byte 3 of `rule_count` and the 56 bytes of the first condition. -/
theorem default_policy_id_runs_on :
    id_field default_policy = c_bytes "GOV-SEC-DEFAU" ∧
    id_c_string default_policy =
      c_bytes "GOV-SEC-DEFAU" ++ 3 ::
        c_bytes "crypto_algo != 'kyber512' && crypto_algo != 'dilithium2'" ∧
    (id_c_string default_policy).length = 70 := by
  decide

/-- Two candidates whose initialisers differ only behind the 13th character
are the same to `load_policy`: the second is rejected as a duplicate. -/
theorem load_policy_rejects_shared_field :
    id_field (test_policy_named "GOV-SEC-TEST02") = id_field test_policy ∧
    (load_policy (load_policy (governance_init zero_engine) test_policy).1
      (test_policy_named "GOV-SEC-TEST02")).2 = 0 := by
  decide

/-- C6: a candidate whose `policy_id` field holds the same identifier as the
default policy's, `GOV-SEC-DEFAU`, but which has one rule, is not rejected on
a freshly initialised engine: the fields have no terminator, `strcmp` runs on
into `rule_count` (1 against 3), and `load_policy` returns 1 and stores the
candidate, so `policy_count` becomes 2. -/
theorem load_policy_admits_duplicate_identifier :
    id_field (test_policy_named "GOV-SEC-DEFAULT") =
      id_field ((governance_init zero_engine).active_policies 0) ∧
    (id_c_string (test_policy_named "GOV-SEC-DEFAULT")).take 14 =
      c_bytes "GOV-SEC-DEFAU" ++ [1] ∧
    (id_c_string ((governance_init zero_engine).active_policies 0)).take 14 =
      c_bytes "GOV-SEC-DEFAU" ++ [3] ∧
    (load_policy (governance_init zero_engine) (test_policy_named "GOV-SEC-DEFAULT")).2 = 1 ∧
    (load_policy (governance_init zero_engine)
      (test_policy_named "GOV-SEC-DEFAULT")).1.policy_count = 2 := by
  decide

/-- C7: `verify_policy_signature` accepts every policy, so `load_policy` on a
freshly initialised engine admits the candidate of `test_policy_loading`
whatever its signature and public key bytes are (all zero in the test): the
call returns 1 and the candidate is copied into slot 1. -/
theorem load_policy_admits_any_signature (e0 : governance_engine) (sig : Fin 64 → Nat)
    (pk : Fin 32 → Nat) :
    (∀ c : nano_policy, verify_policy_signature c = 1) ∧
    (load_policy (governance_init e0)
        { test_policy with signature := sig, public_key := pk }).2 = 1 ∧
    (load_policy (governance_init e0)
        { test_policy with signature := sig, public_key := pk }).1.policy_count = 2 ∧
    (load_policy (governance_init e0)
        { test_policy with signature := sig, public_key := pk }).1.active_policies 1 =
      { test_policy with signature := sig, public_key := pk } :=
  ⟨fun _ => rfl, rfl, rfl, rfl⟩

/-- One call of `load_policy` either leaves `policy_count` as it was or, from
below capacity, adds one to it. -/
theorem load_policy_count (e : governance_engine) (c : nano_policy) :
    (load_policy e c).1.policy_count = e.policy_count ∨
      (e.policy_count < MAX_POLICIES ∧
        (load_policy e c).1.policy_count = e.policy_count + 1) := by
  unfold load_policy
  split
  · exact Or.inl rfl
  · split
    · exact Or.inl rfl
    · split
      · exact Or.inl rfl
      · exact Or.inr ⟨by omega, rfl⟩

/-- C8: in every engine state reachable from `governance_init` by calls of
`load_policy` and `governance_enforce`, `1 ≤ policy_count ≤ MAX_POLICIES`; and
`load_policy` on an engine whose `policy_count` is `MAX_POLICIES` returns 0
and leaves the engine unchanged. -/
theorem policy_count_bounds :
    (∀ e : governance_engine, Reachable e →
      1 ≤ e.policy_count ∧ e.policy_count ≤ MAX_POLICIES) ∧
    (∀ (e : governance_engine) (c : nano_policy), e.policy_count = MAX_POLICIES →
      load_policy e c = (e, 0)) := by
  constructor
  · intro e h
    induction h with
    | init e0 =>
      show 1 ≤ 1 ∧ 1 ≤ MAX_POLICIES
      decide
    | load e c _ ih =>
      rcases load_policy_count e c with h | ⟨h1, h2⟩
      · rw [h]; exact ih
      · rw [h2]; exact ⟨by omega, by omega⟩
    | enforce e clk ctx s out _ hrun ih =>
      rw [(governance_enforce_preserves clk e ctx s out hrun).2.1]
      exact ih
  · intro e c hfull
    unfold load_policy
    simp [hfull]

/-- C8 on concrete engines: the engine with the test policy loaded and a log
entry written is reachable and within the bounds, and a fifth candidate is
rejected by the full store. -/
theorem policy_count_bounds_witness :
    (1 ≤ (load_policy (governance_init zero_engine) test_policy).1.policy_count ∧
      (load_policy (governance_init zero_engine) test_policy).1.policy_count ≤ MAX_POLICIES) ∧
    full_engine.policy_count = MAX_POLICIES ∧
    load_policy full_engine (test_policy_named "GOV-SEC-0005") = (full_engine, 0) :=
  ⟨policy_count_bounds.1 _ (Reachable.load _ test_policy (Reachable.init zero_engine)),
    by decide, policy_count_bounds.2 full_engine _ (by decide)⟩

/-- C9 fails: a rejection by the full store alone (identifier not stored) and
a rejection for a duplicate identifier alone (store not full) return the same
value, 0. -/
theorem load_policy_rejections_coincide :
    (MAX_POLICIES ≤ full_engine.policy_count ∧
      ¬ DuplicateId full_engine (test_policy_named "GOV-SEC-0005")) ∧
    (¬ MAX_POLICIES ≤ loaded_engine.policy_count ∧
      DuplicateId loaded_engine (test_policy_named "GOV-SEC-0001")) ∧
    (load_policy full_engine (test_policy_named "GOV-SEC-0005")).2 = 0 ∧
    (load_policy loaded_engine (test_policy_named "GOV-SEC-0001")).2 = 0 ∧
    ¬ ((load_policy full_engine (test_policy_named "GOV-SEC-0005")).2 ≠
        (load_policy loaded_engine (test_policy_named "GOV-SEC-0001")).2) := by
  decide

/-- C9 as amended: `load_policy` has two result values only; it returns 0 when
the store is full, when the signature check fails or when `strcmp` finds the
candidate's identifier in the store, whichever of these rejections applies,
and 1 otherwise. -/
theorem load_policy_result (e : governance_engine) (c : nano_policy) :
    (load_policy e c).2 =
      if MAX_POLICIES ≤ e.policy_count ∨ verify_policy_signature c = 0 ∨ DuplicateId e c
      then 0 else 1 := by
  unfold load_policy
  by_cases hfull : MAX_POLICIES ≤ e.policy_count
  · simp [hfull]
  · by_cases hsig : verify_policy_signature c = 0
    · simp [hfull, hsig]
    · by_cases hdup : DuplicateId e c
      · have hconf := (policy_conflict_duplicate e c (by omega)).2 hdup
        simp [hfull, hsig, hdup, hconf]
      · have hconf : policy_conflict e c e.policy_count 0 (by omega) = false := by
          rw [← Bool.not_eq_true, policy_conflict_duplicate]
          exact hdup
        simp [hfull, hsig, hdup, hconf]

/-- C18: the engine reached from a freshly initialised engine by loading a
candidate whose `policy_id` field holds `GOV-SEC-DEFAU` and which has two
rules stores two policies with the same identifier in their `policy_id`
fields, in slots 0 and 1. -/
theorem reachable_store_repeats_identifier :
    Reachable (load_policy (governance_init zero_engine)
      { test_policy_named "GOV-SEC-DEFAU" with rule_count := 2 }).1 ∧
    (load_policy (governance_init zero_engine)
      { test_policy_named "GOV-SEC-DEFAU" with rule_count := 2 }).1.policy_count = 2 ∧
    id_field ((load_policy (governance_init zero_engine)
      { test_policy_named "GOV-SEC-DEFAU" with rule_count := 2 }).1.active_policies 0) =
      c_bytes "GOV-SEC-DEFAU" ∧
    id_field ((load_policy (governance_init zero_engine)
      { test_policy_named "GOV-SEC-DEFAU" with rule_count := 2 }).1.active_policies 1) =
      c_bytes "GOV-SEC-DEFAU" :=
  ⟨Reachable.load _ _ (Reachable.init zero_engine), by decide, by decide, by decide⟩

/-! ## `governance_init` -/

/-- C10: whatever the engine memory held before, after `governance_init`
`policy_count` is 1, the policy in slot 0 has `rule_count = 3`, the stored
rules are, in this order, the crypto-algorithm rule, the memory-limit rule and
the dependency rule, each with action Deny (1) and its message, every slot of
the decision log is zero, `log_index` is 0 and `enforcement_flags` is 0. -/
theorem governance_init_default (e0 : governance_engine) :
    (governance_init e0).policy_count = 1 ∧
    ((governance_init e0).active_policies 0).rule_count = 3 ∧
    stored_rules (governance_init e0) =
      [ { condition := "crypto_algo != 'kyber512' && crypto_algo != 'dilithium2'",
          action := 1, message := "Non-quantum-safe algorithm" },
        { condition := "total_memory > 4096", action := 1,
          message := "Exceeds nano memory limit" },
        { condition := "dependency_count > 0", action := 1,
          message := "External dependencies forbidden" } ] ∧
    (∀ i : Fin DECISION_LOG_SIZE, (governance_init e0).log i = zero_entry) ∧
    (governance_init e0).log_index = 0 ∧
    (governance_init e0).enforcement_flags = 0 :=
  ⟨rfl, rfl, rfl, fun _ => rfl, rfl, rfl⟩

/-! ## The trace of one enforcement call -/

theorem through_first_append_of_any {α : Type} (stop : α → Bool) (l1 l2 : List α)
    (h : l1.any stop = true) :
    through_first stop (l1 ++ l2) = through_first stop l1 := by
  induction l1 with
  | nil => simp at h
  | cons x xs ih =>
    simp only [List.cons_append, through_first]
    by_cases hx : stop x = true
    · simp [hx]
    · simp only [hx, Bool.false_eq_true, ite_false, List.cons.injEq, true_and]
      apply ih
      simpa [hx] using h

theorem through_first_append_of_not_any {α : Type} (stop : α → Bool) (l1 l2 : List α)
    (h : l1.any stop = false) :
    through_first stop (l1 ++ l2) = l1 ++ through_first stop l2 := by
  induction l1 with
  | nil => rfl
  | cons x xs ih =>
    simp only [List.any_cons, Bool.or_eq_false_iff] at h
    simp only [List.cons_append, through_first, h.1, Bool.false_eq_true, ite_false,
      List.cons.injEq, true_and]
    exact ih h.2

theorem sites_range_succ (p : Nat) (policy : nano_policy) (r n : Nat)
    (hr : r < MAX_RULES_PER_POLICY) :
    (List.range' r (n + 1)).filterMap (site_at p policy) =
      (rule_site.mk p r policy (policy.rules ⟨r, hr⟩)) ::
        (List.range' (r + 1) n).filterMap (site_at p policy) := by
  rw [List.range'_succ, List.filterMap_cons]
  simp [site_at, rule_at, hr]

/-- Whenever the inner loop is defined, the engine it leaves is the engine it
started from with one append for each matching rule it visited, up to and
including the first terminal one; it executed a `return` exactly when there
was a terminal one, and the handlers called are those of the returned code. -/
theorem enforce_rules_trace (clk : Nat → Nat → Nat) (p : Nat) (policy : nano_policy)
    (s : system_state) :
    ∀ (n r : Nat) (e e1 : governance_engine) (res : Option (Nat × List handler)),
      enforce_rules clk p policy s n r e = some (e1, res) →
      e1 = (through_first is_terminal
              (((List.range' r n).filterMap (site_at p policy)).filter (is_match s))).foldl
            (append_site clk) e ∧
        res.isSome =
          (((List.range' r n).filterMap (site_at p policy)).filter (is_match s)).any
            is_terminal ∧
        ∀ code calls, res = some (code, calls) → calls = handler_calls code := by
  intro n
  induction n with
  | zero =>
    intro r e e1 res h
    simp only [enforce_rules, Option.some.injEq, Prod.mk.injEq] at h
    obtain ⟨rfl, rfl⟩ := h
    simp [through_first]
  | succ n ih =>
    intro r e e1 res h
    unfold enforce_rules at h
    by_cases hr : r < MAX_RULES_PER_POLICY
    · rw [sites_range_succ p policy r n hr]
      simp only [hr, dite_true] at h
      by_cases hc : evaluate_condition (policy.rules ⟨r, hr⟩).condition s = 0
      · simp only [hc, ne_eq, not_true_eq_false, ite_false] at h
        have hm : is_match s (rule_site.mk p r policy (policy.rules ⟨r, hr⟩)) = false := by simp [is_match, hc]
        rw [List.filter_cons_of_neg (by simp [hm])]
        exact ih (r + 1) e e1 res h
      · simp only [hc, ne_eq, not_false_eq_true, ite_true] at h
        have hm : is_match s (rule_site.mk p r policy (policy.rules ⟨r, hr⟩)) = true := by simp [is_match, hc]
        rw [List.filter_cons_of_pos hm]
        by_cases hl : e.log_index < DECISION_LOG_SIZE
        · simp only [hl, dite_true] at h
          have happ : append_site clk e (rule_site.mk p r policy (policy.rules ⟨r, hr⟩)) =
              log_decision (clk p r) policy (policy.rules ⟨r, hr⟩) e hl := by
            simp [append_site, hl]
          rcases terminal_code_cases (policy.rules ⟨r, hr⟩).action with hk | hk | hk | hk
          · obtain ⟨hn, h1, h3, h4⟩ := hk
            have ht : is_terminal (rule_site.mk p r policy (policy.rules ⟨r, hr⟩)) = false := by simp [is_terminal, hn]
            simp only [through_first, ht, Bool.false_eq_true, ite_false, List.foldl_cons,
              List.any_cons, Bool.false_or, happ]
            refine ih (r + 1) (log_decision (clk p r) policy (policy.rules ⟨r, hr⟩) e hl)
              e1 res ?_
            revert h
            split <;> first | contradiction | exact id
          · obtain ⟨ha, hn⟩ := hk
            have ht : is_terminal (rule_site.mk p r policy (policy.rules ⟨r, hr⟩)) = true := by simp [is_terminal, hn]
            simp only [ha, Option.some.injEq, Prod.mk.injEq] at h
            obtain ⟨rfl, rfl⟩ := h
            simp [through_first, ht, happ, handler_calls]
          · obtain ⟨ha, hn⟩ := hk
            have ht : is_terminal (rule_site.mk p r policy (policy.rules ⟨r, hr⟩)) = true := by simp [is_terminal, hn]
            simp only [ha, Option.some.injEq, Prod.mk.injEq] at h
            obtain ⟨rfl, rfl⟩ := h
            simp [through_first, ht, happ, handler_calls]
          · obtain ⟨ha, hn⟩ := hk
            have ht : is_terminal (rule_site.mk p r policy (policy.rules ⟨r, hr⟩)) = true := by simp [is_terminal, hn]
            simp only [ha, Option.some.injEq, Prod.mk.injEq] at h
            obtain ⟨rfl, rfl⟩ := h
            simp [through_first, ht, happ, handler_calls]
        · simp [hl] at h
    · simp [hr] at h


theorem through_first_of_not_any {α : Type} (stop : α → Bool) (l : List α)
    (h : l.any stop = false) : through_first stop l = l := by
  have := through_first_append_of_not_any stop l [] h
  simpa [through_first] using this

theorem sites_at_congr (e e1 : governance_engine)
    (h : e1.active_policies = e.active_policies) : sites_at e1 = sites_at e := by
  funext p
  simp [sites_at, policy_at_congr e e1 h]

theorem sites_at_of_lt (e : governance_engine) (p : Nat) (hp : p < MAX_POLICIES) :
    sites_at e p =
      (List.range' 0 (e.active_policies ⟨p, hp⟩).rule_count).filterMap
        (site_at p (e.active_policies ⟨p, hp⟩)) := by
  simp [sites_at, policy_at, hp, sites_of, List.range_eq_range']

/-- Whenever the outer loop is defined, the engine it leaves is the engine it
started from with one append for each matching rule among the policies it was
to visit, in scan order, up to and including the first terminal one; and the
handlers called are those of the returned code. -/
theorem enforce_policies_trace (clk : Nat → Nat → Nat) (s : system_state) :
    ∀ (n p : Nat) (e : governance_engine) (out : enforce_outcome),
      enforce_policies clk s n p e = some out →
      out.engine = (through_first is_terminal
          (((List.range' p n).flatMap (sites_at e)).filter (is_match s))).foldl
            (append_site clk) e ∧
        out.calls = handler_calls out.result := by
  intro n
  induction n with
  | zero =>
    intro p e out h
    simp only [enforce_policies, Option.some.injEq] at h
    subst h
    simp [through_first, handler_calls]
  | succ n ih =>
    intro p e out h
    unfold enforce_policies at h
    by_cases hp : p < MAX_POLICIES
    · rw [List.range'_succ, List.flatMap_cons, List.filter_append, sites_at_of_lt e p hp]
      simp only [hp, dite_true] at h
      split at h
      · exact absurd h (by simp)
      · rename_i e1 code calls hrun
        simp only [Option.some.injEq] at h
        subst h
        obtain ⟨heng, hany, hcalls⟩ := enforce_rules_trace clk p _ s _ 0 e e1 _ hrun
        rw [through_first_append_of_any _ _ _ (by rw [← hany]; rfl)]
        exact ⟨heng, hcalls code calls rfl⟩
      · rename_i e1 hrun
        obtain ⟨heng, hany, _⟩ := enforce_rules_trace clk p _ s _ 0 e e1 _ hrun
        have hnone : (((List.range' 0 (e.active_policies ⟨p, hp⟩).rule_count).filterMap
            (site_at p (e.active_policies ⟨p, hp⟩))).filter (is_match s)).any is_terminal
              = false := by rw [← hany]; rfl
        rw [through_first_of_not_any _ _ hnone] at heng
        rw [through_first_append_of_not_any _ _ _ hnone, List.foldl_append, ← heng]
        obtain ⟨k1, k2⟩ := ih (p + 1) e1 out h
        rw [sites_at_congr e e1 (enforce_rules_preserves clk p _ s _ 0 e e1 _ hrun).1] at k1
        exact ⟨k1, k2⟩
    · simp [hp] at h

theorem stored_sites_eq (e : governance_engine) :
    stored_sites e = (List.range' 0 e.policy_count).flatMap (sites_at e) := by
  rw [stored_sites, List.range_eq_range']

/-- Whenever `governance_enforce` is defined, the engine it leaves is the
engine before the call with one append for each logged rule, in order, and the
handlers called are those of the returned code. -/
theorem governance_enforce_trace (clk : Nat → Nat → Nat) (e : governance_engine) (ctx : String)
    (s : system_state) (out : enforce_outcome)
    (h : governance_enforce clk e ctx s = some out) :
    out.engine = (logged_sites e s).foldl (append_site clk) e ∧
      out.calls = handler_calls out.result := by
  rw [logged_sites, stored_sites_eq]
  exact enforce_policies_trace clk s e.policy_count 0 e out h

/-- What one call logs depends on the policy store and the policy count only. -/
theorem logged_sites_congr (e e1 : governance_engine) (s : system_state)
    (h1 : e1.active_policies = e.active_policies) (h2 : e1.policy_count = e.policy_count) :
    logged_sites e1 s = logged_sites e s := by
  simp [logged_sites, stored_sites, h2, sites_at_congr e e1 h1]

/-! ## `evaluate_condition` -/

/-- C11: `evaluate_condition` is a total function, but on a condition that is
a single comparison on a field no system state has, `no_such_field == 1`, it
returns 1 (true) for every system state, not 0. -/
theorem evaluate_condition_unknown_field (s : system_state) :
    evaluate_condition "no_such_field == 1" s = 1 ∧
      evaluate_condition "no_such_field == 1" s ≠ 0 :=
  ⟨rfl, Nat.one_ne_zero⟩

/-! ## The bytes of the decision log -/

set_option maxRecDepth 1000000 in
/-- C12: enforcement calls on a freshly initialised engine, each appending one
entry.  After 99 calls `log_index` is 99.  The 100th call writes entry 99, and
the copy of the 70-byte identifier string runs over the end of the log onto
`log_index`, which then reads `0x203D`; the increment modulo 100 leaves 54,
not 0.  After the 101st call `log_index` is 55, not 1. -/
theorem log_index_after_hundred_appends :
    (replay_mem 99).map read_log_index = some 99 ∧
    (replay_mem 100).map read_log_index = some 54 ∧
    (replay_mem 101).map read_log_index = some 55 ∧
    100 % DECISION_LOG_SIZE = 0 ∧ 101 % DECISION_LOG_SIZE = 1 := by
  decide

/-! ## Repeated enforcement, handlers, and what is logged -/

theorem entries_written_length (clk : Nat → Nat → Nat) :
    ∀ (xs : List rule_site) (e : governance_engine),
      (entries_written clk e xs).length = xs.length := by
  intro xs
  induction xs with
  | nil => intro e; rfl
  | cons x xs ih => intro e; simp [entries_written, ih]

/-- C13: two calls of `governance_enforce` in succession with the same system
state (the clock and the context may differ) and no `load_policy` in between:
on an engine whose counters stay inside the arrays both calls return; and
whenever both return, they return the same code, they log the same rules, the
second call appends as many entries as the first, and when the first call
appends one entry the two calls together append two. -/
theorem enforce_twice_same_decision (clk1 clk2 : Nat → Nat → Nat) (e : governance_engine)
    (ctx1 ctx2 : String) (s : system_state) :
    (WellFormed e → ∃ out1 out2, governance_enforce clk1 e ctx1 s = some out1 ∧
      governance_enforce clk2 out1.engine ctx2 s = some out2) ∧
    (∀ out1 out2, governance_enforce clk1 e ctx1 s = some out1 →
      governance_enforce clk2 out1.engine ctx2 s = some out2 →
      out2.result = out1.result ∧
      logged_sites out1.engine s = logged_sites e s ∧
      (enforce_entries clk2 out1.engine s).length = (enforce_entries clk1 e s).length ∧
      ((enforce_entries clk1 e s).length = 1 →
        (enforce_entries clk1 e s ++ enforce_entries clk2 out1.engine s).length = 2) ∧
      out1.engine = (logged_sites e s).foldl (append_site clk1) e ∧
      out2.engine = (logged_sites e s).foldl (append_site clk2) out1.engine) := by
  constructor
  · intro hwf
    obtain ⟨out1, h1, hpol, hcnt, _, hlog, _⟩ := governance_enforce_frame clk1 e ctx1 s hwf
    have hwf1 : WellFormed out1.engine := by
      refine ⟨by rw [hcnt]; exact hwf.1, hlog, ?_⟩
      intro p hp
      rw [hpol]
      exact hwf.2.2 p (by rw [← hcnt]; exact hp)
    obtain ⟨out2, h2, _⟩ := governance_enforce_frame clk2 out1.engine ctx2 s hwf1
    exact ⟨out1, out2, h1, h2⟩
  · intro out1 out2 h1 h2
    obtain ⟨hpol, hcnt, _⟩ := governance_enforce_preserves clk1 e ctx1 s out1 h1
    have hsites := logged_sites_congr e out1.engine s hpol hcnt
    have hlen : (enforce_entries clk2 out1.engine s).length =
        (enforce_entries clk1 e s).length := by
      simp [enforce_entries, entries_written_length, hsites]
    refine ⟨?_, hsites, hlen, ?_, (governance_enforce_trace clk1 e ctx1 s out1 h1).1, ?_⟩
    · rw [enforce_policies_result clk2 s _ 0 _ out2 h2,
        enforce_policies_result clk1 s _ 0 _ out1 h1, hcnt,
        policy_at_congr e out1.engine hpol]
    · intro hone
      rw [List.length_append, hlen, hone]
    · rw [(governance_enforce_trace clk2 out1.engine ctx2 s out2 h2).1, hsites]


/-- C13 on the freshly initialised engine and the state of
`test_enforcement_decision`: both calls return the same code, each appends one
entry, together two. -/
theorem enforce_twice_same_decision_witness :
    WellFormed (governance_init zero_engine) ∧
    (enforce_entries (fun _ _ => 1) (governance_init zero_engine) test_state).length = 1 ∧
    ∃ out1 out2,
      governance_enforce (fun _ _ => 1) (governance_init zero_engine) "first" test_state
        = some out1 ∧
      governance_enforce (fun _ _ => 2) out1.engine "second" test_state = some out2 ∧
      out2.result = out1.result ∧
      (enforce_entries (fun _ _ => 1) (governance_init zero_engine) test_state ++
        enforce_entries (fun _ _ => 2) out1.engine test_state).length = 2 :=
  ⟨by decide, by decide,
    ((enforce_twice_same_decision (fun _ _ => 1) (fun _ _ => 2) (governance_init zero_engine)
        "first" "second" test_state).1 (by decide)).elim
      fun out1 hex => hex.elim fun out2 hcalls =>
        ⟨out1, out2, hcalls.1, hcalls.2,
          ((enforce_twice_same_decision (fun _ _ => 1) (fun _ _ => 2)
            (governance_init zero_engine) "first" "second" test_state).2
              out1 out2 hcalls.1 hcalls.2).1,
          ((enforce_twice_same_decision (fun _ _ => 1) (fun _ _ => 2)
            (governance_init zero_engine) "first" "second" test_state).2
              out1 out2 hcalls.1 hcalls.2).2.2.2.1 (by decide)⟩⟩

/-- The decision is 0 or the code of a stored rule that is a terminal match. -/
theorem first_terminal_cases (e : governance_engine) (s : system_state) :
    first_terminal e s = 0 ∨
      ∃ rule ∈ stored_rules e, evaluate_condition rule.condition s ≠ 0 ∧
        terminal_code rule.action = some (first_terminal e s) := by
  unfold first_terminal
  cases hfind : (stored_rules e).findSome? (terminal_match s) with
  | none => exact Or.inl rfl
  | some c =>
    right
    obtain ⟨rule, hmem, hrule⟩ := List.exists_of_findSome?_eq_some hfind
    refine ⟨rule, hmem, ?_⟩
    unfold terminal_match at hrule
    by_cases hc : evaluate_condition rule.condition s ≠ 0
    · rw [if_pos hc] at hrule
      exact ⟨hc, by simpa using hrule⟩
    · rw [if_neg hc] at hrule
      exact absurd hrule (by simp)

/-- The rules stored in an engine that holds the default policy only. -/
theorem stored_rules_default_only (e : governance_engine) (hcount : e.policy_count = 1)
    (hdefault : e.active_policies 0 = default_policy) :
    stored_rules e = rules_of default_policy := by
  have h0 : e.active_policies ⟨0, by decide⟩ = default_policy := hdefault
  simp [stored_rules, stored_policies, hcount, policy_at, h0, hdefault, List.range_succ]

/-- Every rule of the default policy has action Deny. -/
theorem default_rules_deny : ∀ rule ∈ rules_of default_policy, rule.action = 1 := by
  decide

/-- C15: whenever `governance_enforce` returns, its code is 0, 1, 2 or 3 and
the handlers it called are determined by the code: none for Allow (0) and Deny
(1), `quarantine_device` once for Quarantine (2), `secure_erase_all` then
`halt_device`, once each, for SelfDestruct (3).  Code 3 is returned only when
a stored rule with action SelfDestruct (4) matched, and an engine that holds
the default policy only calls no handler. -/
theorem enforce_handler_calls (clk : Nat → Nat → Nat) (e : governance_engine) (ctx : String)
    (s : system_state) (out : enforce_outcome)
    (hcall : governance_enforce clk e ctx s = some out) :
    ((out.result = 0 ∨ out.result = 1) ∧ out.calls = [] ∨
      out.result = 2 ∧ out.calls = [handler.quarantine_device] ∨
      out.result = 3 ∧ out.calls = [handler.secure_erase_all, handler.halt_device]) ∧
    (out.result = 3 → ∃ rule ∈ stored_rules e,
      rule.action = 4 ∧ evaluate_condition rule.condition s ≠ 0) ∧
    (e.policy_count = 1 → e.active_policies 0 = default_policy → out.calls = []) := by
  have hres : out.result = first_terminal e s := by
    rw [enforce_policies_result clk s e.policy_count 0 e out hcall, first_terminal,
      stored_rules_eq]
  have hcalls := (governance_enforce_trace clk e ctx s out hcall).2
  have hcases := first_terminal_cases e s
  rw [← hres] at hcases
  have hcode : out.result = 0 ∨ ∃ rule ∈ stored_rules e,
      evaluate_condition rule.condition s ≠ 0 ∧
        (rule.action = 1 ∧ out.result = 1 ∨ rule.action = 3 ∧ out.result = 2 ∨
          rule.action = 4 ∧ out.result = 3) := by
    rcases hcases with h0 | ⟨rule, hmem, hc, hcode⟩
    · exact Or.inl h0
    · right
      refine ⟨rule, hmem, hc, ?_⟩
      rcases terminal_code_cases rule.action with h | h | h | h
      · rw [h.1] at hcode; exact absurd hcode (by simp)
      · rw [h.2] at hcode; exact Or.inl ⟨h.1, (Option.some.inj hcode).symm⟩
      · rw [h.2] at hcode; exact Or.inr (Or.inl ⟨h.1, (Option.some.inj hcode).symm⟩)
      · rw [h.2] at hcode; exact Or.inr (Or.inr ⟨h.1, (Option.some.inj hcode).symm⟩)
  refine ⟨?_, ?_, ?_⟩
  · rcases hcode with h0 | ⟨rule, _, _, h | h | h⟩
    · exact Or.inl ⟨Or.inl h0, by rw [hcalls, h0]; rfl⟩
    · exact Or.inl ⟨Or.inr h.2, by rw [hcalls, h.2]; rfl⟩
    · exact Or.inr (Or.inl ⟨h.2, by rw [hcalls, h.2]; rfl⟩)
    · exact Or.inr (Or.inr ⟨h.2, by rw [hcalls, h.2]; rfl⟩)
  · intro h3
    rcases hcode with h0 | ⟨rule, hmem, hc, h | h | h⟩
    · omega
    · omega
    · omega
    · exact ⟨rule, hmem, h.1, hc⟩
  · intro hcount hdefault
    rw [stored_rules_default_only e hcount hdefault] at hcode
    rcases hcode with h0 | ⟨rule, hmem, _, h⟩
    · rw [hcalls, h0]; rfl
    · have hact : rule.action = 1 := default_rules_deny rule hmem
      rcases h with h | h | h
      · rw [hcalls, h.2]; rfl
      · omega
      · omega


/-- C15 at the layered store, where the call returns Quarantine. -/
theorem enforce_handler_calls_witness :
    (governance_enforce (fun _ _ => 0) layered_engine "test" test_state).map
        (fun o => (o.result, o.calls)) = some (2, [handler.quarantine_device]) ∧
    ∃ out, governance_enforce (fun _ _ => 0) layered_engine "test" test_state = some out ∧
      ((out.result = 0 ∨ out.result = 1) ∧ out.calls = [] ∨
        out.result = 2 ∧ out.calls = [handler.quarantine_device] ∨
        out.result = 3 ∧ out.calls = [handler.secure_erase_all, handler.halt_device]) :=
  ⟨by decide,
    (governance_enforce_frame (fun _ _ => 0) layered_engine "test" test_state
        (by decide)).elim
      fun out h => ⟨out, h.1,
        (enforce_handler_calls (fun _ _ => 0) layered_engine "test" test_state out h.1).1⟩⟩

/-! ## The Linux security-module adapter -/

/-- On an engine whose slot 0 holds the default policy, with at least one
policy stored and the cursor inside the log, default rule 1 is the rule that
fires: the call logs it and returns Deny. -/
theorem enforce_default_first (clk : Nat → Nat → Nat) (e : governance_engine) (ctx : String)
    (s : system_state) (hdefault : e.active_policies 0 = default_policy)
    (hcount : 1 ≤ e.policy_count) (hl : e.log_index < DECISION_LOG_SIZE) :
    governance_enforce clk e ctx s =
      some { engine := log_decision (clk 0 0) default_policy (default_policy.rules 0) e hl,
             result := 1, calls := [] } := by
  obtain ⟨n, hn⟩ : ∃ n, e.policy_count = n + 1 := ⟨e.policy_count - 1, by omega⟩
  have hpol : e.active_policies ⟨0, by decide⟩ = default_policy := hdefault
  unfold governance_enforce
  rw [hn]
  unfold enforce_policies
  rw [dif_pos (by decide), hpol]
  have hrules : enforce_rules clk 0 default_policy s default_policy.rule_count 0 e =
      some (log_decision (clk 0 0) default_policy (default_policy.rules 0) e hl,
        some (1, [])) := by
    show enforce_rules clk 0 default_policy s 3 0 e = _
    unfold enforce_rules
    rw [dif_pos (by decide),
      if_pos (show evaluate_condition (default_policy.rules ⟨0, by decide⟩).condition s ≠ 0
        from Nat.one_ne_zero), dif_pos hl]
    rfl
  rw [hrules]

/-- What `load_policy` leaves in the engine: either the engine as it was, or
the candidate in the slot `policy_count`, with one more policy counted. -/
theorem load_policy_store (e : governance_engine) (c : nano_policy) :
    (load_policy e c).1 = e ∨
      ∃ hroom : e.policy_count < MAX_POLICIES,
        (load_policy e c).1 =
          { e with
            active_policies := Function.update e.active_policies ⟨e.policy_count, hroom⟩ c
            policy_count := e.policy_count + 1 } := by
  unfold load_policy
  split
  · exact Or.inl rfl
  · split
    · exact Or.inl rfl
    · split
      · exact Or.inl rfl
      · exact Or.inr ⟨by omega, rfl⟩

/-- In every reachable engine slot 0 holds the default policy, at least one
policy is stored and the cursor is inside the log. -/
theorem reachable_default_first (e : governance_engine) (hreach : Reachable e) :
    e.active_policies 0 = default_policy ∧ 1 ≤ e.policy_count ∧
      e.log_index < DECISION_LOG_SIZE := by
  induction hreach with
  | init e0 => exact ⟨rfl, Nat.le_refl 1, Nat.zero_lt_succ 99⟩
  | load e c _ ih =>
    rcases load_policy_store e c with h | ⟨hroom, h⟩
    · rw [h]; exact ih
    · rw [h]
      refine ⟨?_, Nat.le_succ_of_le ih.2.1, ih.2.2⟩
      show Function.update e.active_policies ⟨e.policy_count, hroom⟩ c 0 = default_policy
      rw [Function.update_noteq, ih.1]
      intro h0
      have := congrArg Fin.val h0
      simp only [Fin.val_zero] at this
      omega
  | enforce e clk ctx s out _ hcall ih =>
    rw [enforce_default_first clk e ctx s ih.1 ih.2.1 ih.2.2] at hcall
    cases hcall
    exact ⟨ih.1, ih.2.1, Nat.mod_lt _ (by decide)⟩

/-- The branch for Quarantine is in `gitdigital_file_permission` only: on an
engine built by hand whose only rule has action Quarantine, which no call
sequence reaches, `gitdigital_module_load` would return 0. -/
theorem module_load_has_no_quarantine_branch :
    ¬ Reachable quarantine_engine ∧
    (governance_enforce (fun _ _ => 0) quarantine_engine "module_load" test_state).map
        (fun o => o.result) = some 2 ∧
    (gitdigital_module_load (fun _ _ => 0) quarantine_engine test_state).map Prod.snd
      = some 0 ∧
    (gitdigital_file_permission (fun _ _ => 0) quarantine_engine test_state).map Prod.snd
      = some (-EACCES) := by
  refine ⟨?_, by decide, by decide, by decide⟩
  intro hreach
  have h := (reachable_default_first quarantine_engine hreach).1
  have hcount : (quarantine_engine.active_policies 0).rule_count = default_policy.rule_count :=
    congrArg nano_policy.rule_count h
  revert hcount
  decide


/-! ## Rule counts and identifiers of stored policies -/

/-- C17: `load_policy` does not look at `rule_count`: loading a candidate
that declares eleven rules into a freshly initialised engine succeeds, and
the reached engine stores a policy with `rule_count = 11 > 10`.  A scan that
gets to the end of such a policy indexes `rules[10]`. -/
theorem load_policy_stores_oversized_rule_count :
    LoadReachable (load_policy (governance_init zero_engine) oversized_policy).1 ∧
    (load_policy (governance_init zero_engine) oversized_policy).2 = 1 ∧
    (load_policy (governance_init zero_engine) oversized_policy).1.policy_count = 2 ∧
    ((load_policy (governance_init zero_engine) oversized_policy).1.active_policies
      1).rule_count = 11 ∧
    ¬ ((load_policy (governance_init zero_engine) oversized_policy).1.active_policies
      1).rule_count ≤ MAX_RULES_PER_POLICY ∧
    (governance_enforce (fun _ _ => 0) overlong_engine "test" test_state).isNone = true :=
  ⟨LoadReachable.load _ _ (LoadReachable.init zero_engine),
    by decide, by decide, by decide, by decide, by decide⟩

/-! ## Sizes of the character arrays -/

/-- C20: `strcpy(qp->policy_id, "GOV-SEC-DEFAULT")` writes 16 bytes into the
13-byte `policy_id`, and `governance_enforce` copies the same identifier into
the 13-byte `policy_id` of a log entry; the three conditions fit in 64 bytes
and the three messages fit in the 32 bytes of `message` and of `details`. -/
theorem default_policy_id_overflows :
    strcpy_bytes default_policy.policy_id = 16 ∧
    ¬ strcpy_fits sizeof_policy_id default_policy.policy_id ∧
    (∀ rule ∈ rules_of default_policy,
      strcpy_fits sizeof_condition rule.condition ∧ strcpy_fits sizeof_message rule.message ∧
        strcpy_fits sizeof_details rule.message) ∧
    (rules_of default_policy).map (fun rule => strcpy_bytes rule.condition) = [57, 20, 21] ∧
    (rules_of default_policy).map (fun rule => strcpy_bytes rule.message) = [27, 26, 32] := by
  decide


/-! ## The compile-time enforcer -/

theorem check_banned_count (filename line : String) :
    ∀ (patterns : List String) (acc : Nat × List report),
      acc.1 + (patterns.filter fun pattern => strstr line pattern).length ≤ INT_MAX →
      ∃ out, check_banned filename line patterns acc =
        some (acc.1 + (patterns.filter fun pattern => strstr line pattern).length, out) := by
  intro patterns
  induction patterns with
  | nil => intro acc _; exact ⟨acc.2, rfl⟩
  | cons b bs ih =>
    intro acc hle
    unfold check_banned
    by_cases hb : strstr line b = true
    · simp only [hb, List.filter_cons_of_pos, List.length_cons] at hle ⊢
      have hadd : int_add acc.1 1 = some (acc.1 + 1) := by
        unfold int_add
        rw [if_pos (by omega)]
      simp only [ite_true, hadd]
      obtain ⟨out, hout⟩ := ih (acc.1 + 1, acc.2 ++ [report.violation b filename])
        (by simp only; omega)
      exact ⟨out, by rw [hout]; simp only [Option.some.injEq, Prod.mk.injEq, and_true]; omega⟩
    · simp only [hb, Bool.false_eq_true, ite_false, not_false_eq_true,
        List.filter_cons_of_neg] at hle ⊢
      exact ih acc hle

theorem violation_pairs_cons (line : String) (lines : List String) :
    violation_pairs (line :: lines) =
      (banned.filter fun pattern => strstr line pattern).length + violation_pairs lines := by
  unfold violation_pairs
  rw [List.flatMap_cons, List.filter_append, List.length_append, List.filter_map,
    List.length_map]
  rfl

theorem check_lines_count (filename : String) :
    ∀ (lines : List String) (acc : Nat × List report),
      acc.1 + violation_pairs lines ≤ INT_MAX →
      ∃ out, check_lines filename lines acc = some (acc.1 + violation_pairs lines, out) := by
  intro lines
  induction lines with
  | nil => intro acc _; exact ⟨acc.2, rfl⟩
  | cons l ls ih =>
    intro acc hle
    rw [violation_pairs_cons] at hle ⊢
    obtain ⟨out1, h1⟩ := check_banned_count filename l banned acc (by omega)
    unfold check_lines
    rw [h1]
    simp only
    obtain ⟨out2, h2⟩ := ih (acc.1 + (banned.filter fun pattern => strstr l pattern).length,
      out1 ++ line_warnings filename l) (by simp only; omega)
    exact ⟨out2, by rw [h2]; simp only [Option.some.injEq, Prod.mk.injEq, and_true]; omega⟩

/-- Within the range of `int`, `check_source_file` returns the number of
violation pairs of the file. -/
theorem check_source_file_count (fopen : String → Option (List String)) (filename : String)
    (hle : file_pairs fopen filename ≤ INT_MAX) :
    ∃ out, check_source_file fopen filename = some (file_pairs fopen filename, out) := by
  unfold check_source_file
  unfold file_pairs at hle ⊢
  cases hopen : fopen filename with
  | none => exact ⟨[], rfl⟩
  | some lines =>
    rw [hopen] at hle
    simp only at hle ⊢
    obtain ⟨out, hout⟩ := check_lines_count filename lines (0, []) (by simp only; omega)
    exact ⟨out, by rw [hout]; simp⟩

theorem check_files_total (fopen : String → Option (List String)) :
    ∀ (files : List String) (acc : Nat × List report),
      acc.1 + (files.map (file_pairs fopen)).sum ≤ INT_MAX →
      ∃ out, check_files fopen files acc =
        some (acc.1 + (files.map (file_pairs fopen)).sum, out) := by
  intro files
  induction files with
  | nil => intro acc _; exact ⟨acc.2, by simp [check_files]⟩
  | cons f fs ih =>
    intro acc hle
    simp only [List.map_cons, List.sum_cons] at hle ⊢
    obtain ⟨out1, h1⟩ := check_source_file_count fopen f (by omega)
    have hadd : int_add acc.1 (file_pairs fopen f) = some (acc.1 + file_pairs fopen f) := by
      unfold int_add
      rw [if_pos (by omega)]
    unfold check_files
    rw [h1]
    simp only [hadd]
    obtain ⟨out2, h2⟩ := ih (acc.1 + file_pairs fopen f, acc.2 ++ out1) (by simp only; omega)
    exact ⟨out2, by rw [h2]; simp only [Option.some.injEq, Prod.mk.injEq, and_true]; omega⟩

/-- C19: as long as the counts stay in the range of `int`,
`check_source_file` returns 0 for a file that cannot be opened and, for a
readable file, the number of pairs (line read, banned pattern) such that the
pattern occurs in the line, whatever warnings were printed; and `main`
returns 1 exactly when the sum of these results over the files named on the
command line (`argv[1..]`) is greater than 0, and 0 otherwise. -/
theorem enforcer_exit_code (fopen : String → Option (List String)) (argv : List String)
    (hrange : (argv.tail.map (file_pairs fopen)).sum ≤ INT_MAX) :
    (∀ filename ∈ argv.tail, ∃ out,
      check_source_file fopen filename =
        some ((match fopen filename with
              | none => 0
              | some lines => violation_pairs lines), out)) ∧
    ∃ out, main fopen argv =
      some ((if 0 < (argv.tail.map (file_pairs fopen)).sum then 1 else 0), out) := by
  constructor
  · intro filename hmem
    have hle : file_pairs fopen filename ≤ INT_MAX :=
      (List.single_le_sum (fun _ _ => Nat.zero_le _) _
        (List.mem_map_of_mem (file_pairs fopen) hmem)).trans hrange
    exact check_source_file_count fopen filename hle
  · obtain ⟨out, hout⟩ := check_files_total fopen argv.tail (0, [report.banner])
      (by simp only; omega)
    unfold main
    rw [hout]
    simp only [Nat.zero_add, gt_iff_lt]
    by_cases hsum : 0 < (argv.tail.map (file_pairs fopen)).sum
    · simp only [hsum, ite_true]
      exact ⟨_, rfl⟩
    · simp only [hsum, ite_false]
      exact ⟨_, rfl⟩

/-- C19 on the sample files: `a.c` has two violations (`rand()` in its first
line, `time(` in its second; the warnings for its third and fourth line do not
count), the missing file has none, and the build fails. -/
theorem enforcer_exit_code_witness :
    (["missing.c", "a.c"].map (file_pairs sample_files)).sum = 2 ∧
    check_source_file sample_files "a.c" =
      some (2, [report.violation "rand()" "a.c", report.violation "time(" "a.c",
        report.external_dependency "a.c", report.large_buffer "a.c"]) ∧
    check_source_file sample_files "missing.c" = some (0, []) ∧
    (main sample_files ["enforcer", "missing.c"]).map Prod.fst = some 0 ∧
    ∃ out, main sample_files ["enforcer", "missing.c", "a.c"] = some (1, out) :=
  ⟨by decide, by decide, by decide, by decide,
    (enforcer_exit_code sample_files ["enforcer", "missing.c", "a.c"] (by decide)).2⟩

end NanoGov
